import Mathlib

/-!
# Resource allocation orchestrator (orte/mca/ras/base/ras_base_allocate.c)

A shallow embedding of `orte_ras_base_allocate`.  The function is a
straight-line chain of discovery steps with early returns.  It talks to
collaborators that live in other files (the active RAS module, the hostfile
parser, the dash-host parser, the node-pool insert, the object allocator);
these are taken as parameters, gathered in `ras_env`.  Pointer arguments that
a collaborator may read and write (`&nodes`, `&override_oversubscribed`) are
passed in and returned.  Every collaborator call is logged in a trace so that
"which collaborator was called, with what, in which order" can be stated.
-/

namespace Ras

/-- Status code of a successful call.  The value is the one of
orte/constants.h, a header outside this file; the caller treats any other
status as an error. -/
def ORTE_SUCCESS : Int := 0

/-- Status code returned when the local node object cannot be constructed.
The value is the one of orte/constants.h, a header outside this file; only
its being different from `ORTE_SUCCESS` matters. -/
def ORTE_ERR_OUT_OF_RESOURCE : Int := -2

/-- Node states (orte_node_state_t); the function only ever writes `UP`. -/
inductive orte_node_state_t where
  | UNKNOWN
  | DOWN
  | UP
  | REBOOT
deriving DecidableEq, Repr

/-- The fields of `orte_node_t` that the function writes. -/
structure orte_node_t where
  name : String
  state : orte_node_state_t
  slots_inuse : Int
  slots_max : Int
  slots : Int
deriving DecidableEq, Repr

/-- The fields of `orte_app_context_t` that the function reads: the hostfile
path (`none` is the NULL pointer), the `num_map` count and the dash-host
strings. -/
structure orte_app_context_t where
  hostfile : Option String
  num_map : Int
  dash_host : List String
deriving DecidableEq, Repr

/-- The fields of `orte_job_t` that the function touches.  `apps` stands for
the array `jdata->apps->addr[0 .. num_apps)`, so `num_apps` is its length. -/
structure orte_job_t where
  apps : List orte_app_context_t
  oversubscribe_override : Bool
deriving DecidableEq, Repr

/-- The process-wide state: the latch `orte_ras_base.allocation_read` and the
global node pool that `orte_ras_base_node_insert` fills. -/
structure ras_state where
  allocation_read : Bool
  orte_node_pool : List orte_node_t
deriving DecidableEq, Repr

/-- One logged collaborator call, with the arguments it got and the status it
returned. -/
inductive ras_call where
  | module_allocate (rc : Int)
  | add_hostfile_nodes (nodes : List orte_node_t) (hostfile : String) (rc : Int)
  | add_dash_host_nodes (nodes : List orte_node_t) (dash_host : List String) (rc : Int)
  | node_insert (nodes : List orte_node_t) (jdata : orte_job_t) (rc : Int)
deriving DecidableEq, Repr

/-- The collaborators and configuration the function reads.

* `active_module`: `orte_ras_base.active_module` (`none` is NULL); its
  `allocate(&nodes)` maps the list it is given to a status and the new list.
* `orte_default_hostfile`: the MCA parameter (`none` is NULL).
* `orte_util_add_hostfile_nodes (&nodes, &override, file)` and
  `orte_util_add_dash_host_nodes (&nodes, &override, dash_host)`: status, new
  list, new value of the override variable.
* `orte_ras_base_node_insert (&nodes, jdata)`: status and new node pool.
* `obj_new_node`: whether `OBJ_NEW(orte_node_t)` yields an object (`false`
  is the NULL result).
* `nodename`: `orte_system_info.nodename`.
* `override_uninit`: the indeterminate value the local variable
  `override_oversubscribed` holds before anything is stored in it. -/
structure ras_env where
  active_module : Option (List orte_node_t → Int × List orte_node_t)
  orte_default_hostfile : Option String
  orte_util_add_hostfile_nodes :
    List orte_node_t → Bool → String → Int × List orte_node_t × Bool
  orte_util_add_dash_host_nodes :
    List orte_node_t → Bool → List String → Int × List orte_node_t × Bool
  orte_ras_base_node_insert :
    List orte_node_t → List orte_node_t → orte_job_t → Int × List orte_node_t
  obj_new_node : Bool
  nodename : String
  override_uninit : Bool

/-- What a call of `orte_ras_base_allocate` leaves behind: the status it
returns, the process-wide state, the job object and the trace of collaborator
calls it made, in order. -/
structure ras_result where
  rc : Int
  st : ras_state
  jdata : orte_job_t
  calls : List ras_call
deriving DecidableEq, Repr

/-- The locals after one of the two loops over the app contexts: the status
(`ORTE_SUCCESS` when the loop ran to its end), `nodes`,
`override_oversubscribed`, and the parser calls made. -/
structure loop_result where
  rc : Int
  nodes : List orte_node_t
  override_oversubscribed : Bool
  calls : List ras_call
deriving DecidableEq, Repr

/-- Put the calls made so far in front of the trace of the rest of the run. -/
def ras_result.after (cs : List ras_call) (r : ras_result) : ras_result :=
  { r with calls := cs ++ r.calls }

/-- Lines 165-182: the loop over the app contexts that parses every per-app
hostfile into the one list `nodes`; a parser error leaves the loop (and the
function) at once. -/
def hostfile_loop (env : ras_env) :
    List orte_app_context_t → List orte_node_t → Bool → loop_result
  | [], nodes, ov => { rc := ORTE_SUCCESS, nodes := nodes, override_oversubscribed := ov, calls := [] }
  | app :: rest, nodes, ov =>
    match app.hostfile with
    | none => hostfile_loop env rest nodes ov
    | some file =>
      let r := env.orte_util_add_hostfile_nodes nodes ov file
      if r.1 ≠ ORTE_SUCCESS then
        { rc := r.1, nodes := r.2.1, override_oversubscribed := r.2.2,
          calls := [ras_call.add_hostfile_nodes nodes file r.1] }
      else
        let s := hostfile_loop env rest r.2.1 r.2.2
        { s with calls := ras_call.add_hostfile_nodes nodes file r.1 :: s.calls }

/-- Lines 219-229: the loop over the app contexts that parses every dash-host
specification (`0 < num_map`) into the one list `nodes`. -/
def dash_host_loop (env : ras_env) :
    List orte_app_context_t → List orte_node_t → Bool → loop_result
  | [], nodes, ov => { rc := ORTE_SUCCESS, nodes := nodes, override_oversubscribed := ov, calls := [] }
  | app :: rest, nodes, ov =>
    if 0 < app.num_map then
      let r := env.orte_util_add_dash_host_nodes nodes ov app.dash_host
      if r.1 ≠ ORTE_SUCCESS then
        { rc := r.1, nodes := r.2.1, override_oversubscribed := r.2.2,
          calls := [ras_call.add_dash_host_nodes nodes app.dash_host r.1] }
      else
        let s := dash_host_loop env rest r.2.1 r.2.2
        { s with calls := ras_call.add_dash_host_nodes nodes app.dash_host r.1 :: s.calls }
    else dash_host_loop env rest nodes ov

/-- Lines 143-150, 191-198 and 238-245 (the same text three times): insert the
list, then store the override variable in the job, then return the status of
the insert whatever it is. -/
def store_with_override (env : ras_env) (st : ras_state) (jdata : orte_job_t)
    (nodes : List orte_node_t) (ov : Bool) : ras_result :=
  let ins := env.orte_ras_base_node_insert st.orte_node_pool nodes jdata
  { rc := ins.1,
    st := { st with orte_node_pool := ins.2 },
    jdata := { jdata with oversubscribe_override := ov },
    calls := [ras_call.node_insert nodes jdata ins.1] }

/-- The node built in lines 266-270. -/
def local_node (env : ras_env) : orte_node_t :=
  { name := env.nodename, state := orte_node_state_t.UP,
    slots_inuse := 0, slots_max := 0, slots := 1 }

/-- Lines 254-284: nothing was found; build the local node, set the override
flag of the job, append the node to `nodes` and insert the list. -/
def local_fallback (env : ras_env) (st : ras_state) (jdata : orte_job_t)
    (nodes : List orte_node_t) : ras_result :=
  if env.obj_new_node = false then
    { rc := ORTE_ERR_OUT_OF_RESOURCE, st := st, jdata := jdata, calls := [] }
  else
    let jdata1 := { jdata with oversubscribe_override := true }
    let nodes1 := nodes ++ [local_node env]
    let ins := env.orte_ras_base_node_insert st.orte_node_pool nodes1 jdata1
    if ins.1 ≠ ORTE_SUCCESS then
      { rc := ins.1, st := { st with orte_node_pool := ins.2 }, jdata := jdata1,
        calls := [ras_call.node_insert nodes1 jdata1 ins.1] }
    else
      { rc := ORTE_SUCCESS, st := { st with orte_node_pool := ins.2 }, jdata := jdata1,
        calls := [ras_call.node_insert nodes1 jdata1 ins.1] }

/-- Lines 219-284: the dash-host loop, the store of its result when it is
not empty, the local fallback otherwise. -/
def from_dash_host (env : ras_env) (st : ras_state) (jdata : orte_job_t)
    (nodes : List orte_node_t) (ov : Bool) : ras_result :=
  let s := dash_host_loop env jdata.apps nodes ov
  if s.rc ≠ ORTE_SUCCESS then
    { rc := s.rc, st := st, jdata := jdata, calls := s.calls }
  else if !s.nodes.isEmpty then
    (store_with_override env st jdata s.nodes s.override_oversubscribed).after s.calls
  else
    (local_fallback env st jdata s.nodes).after s.calls

/-- Lines 163-284: the per-app hostfile loop, the store of its result when it
is not empty, the dash-host step otherwise. -/
def from_app_hostfiles (env : ras_env) (st : ras_state) (jdata : orte_job_t)
    (nodes : List orte_node_t) (ov : Bool) : ras_result :=
  let s := hostfile_loop env jdata.apps nodes ov
  if s.rc ≠ ORTE_SUCCESS then
    { rc := s.rc, st := st, jdata := jdata, calls := s.calls }
  else if !s.nodes.isEmpty then
    (store_with_override env st jdata s.nodes s.override_oversubscribed).after s.calls
  else
    (from_dash_host env st jdata s.nodes s.override_oversubscribed).after s.calls

/-- Lines 139-284: store what the default hostfile gave when it is not empty,
go on to the per-app hostfiles otherwise. -/
def after_default_hostfile (env : ras_env) (st : ras_state) (jdata : orte_job_t)
    (nodes : List orte_node_t) (ov : Bool) : ras_result :=
  if !nodes.isEmpty then
    store_with_override env st jdata nodes ov
  else
    from_app_hostfiles env st jdata nodes ov

/-- Lines 121-135: parse the default hostfile into `nodes` when one is
configured. -/
def default_hostfile_parse (env : ras_env) (nodes : List orte_node_t) (ov : Bool) :
    loop_result :=
  match env.orte_default_hostfile with
  | some file =>
    let r := env.orte_util_add_hostfile_nodes nodes ov file
    { rc := r.1, nodes := r.2.1, override_oversubscribed := r.2.2,
      calls := [ras_call.add_hostfile_nodes nodes file r.1] }
  | none => { rc := ORTE_SUCCESS, nodes := nodes, override_oversubscribed := ov, calls := [] }

/-- Lines 121-284: the default hostfile step; a parser error returns at once.
The variable `override_oversubscribed` is not initialised before this step. -/
def from_default_hostfile (env : ras_env) (st : ras_state) (jdata : orte_job_t)
    (nodes : List orte_node_t) : ras_result :=
  let s := default_hostfile_parse env nodes env.override_uninit
  if s.rc ≠ ORTE_SUCCESS then
    { rc := s.rc, st := st, jdata := jdata, calls := s.calls }
  else
    (after_default_hostfile env st jdata s.nodes s.override_oversubscribed).after s.calls

/-- Lines 97-284: store what the module gave when it is not empty (the job is
not written on this path), go on to the default hostfile otherwise. -/
def after_module (env : ras_env) (st : ras_state) (jdata : orte_job_t)
    (nodes : List orte_node_t) : ras_result :=
  if !nodes.isEmpty then
    let ins := env.orte_ras_base_node_insert st.orte_node_pool nodes jdata
    if ins.1 ≠ ORTE_SUCCESS then
      { rc := ins.1, st := { st with orte_node_pool := ins.2 }, jdata := jdata,
        calls := [ras_call.node_insert nodes jdata ins.1] }
    else
      { rc := ORTE_SUCCESS, st := { st with orte_node_pool := ins.2 }, jdata := jdata,
        calls := [ras_call.node_insert nodes jdata ins.1] }
  else
    from_default_hostfile env st jdata nodes

/-- Lines 88-95: query the active module when there is one; it fills
`nodes`. -/
def module_query (env : ras_env) (nodes : List orte_node_t) :
    Int × List orte_node_t × List ras_call :=
  match env.active_module with
  | some allocate => ((allocate nodes).1, (allocate nodes).2,
      [ras_call.module_allocate (allocate nodes).1])
  | none => (ORTE_SUCCESS, nodes, [])

/-- Lines 83-284: construct the empty list `nodes` and run the module step; a
module error returns at once. -/
def from_module (env : ras_env) (st : ras_state) (jdata : orte_job_t) : ras_result :=
  let m := module_query env []
  if m.1 ≠ ORTE_SUCCESS then
    { rc := m.1, st := st, jdata := jdata, calls := m.2.2 }
  else
    (after_module env st jdata m.2.1).after m.2.2

/-- The function `orte_ras_base_allocate` (lines 43-285): return at once when
the latch is set; otherwise set the latch and run the discovery chain. -/
def orte_ras_base_allocate (env : ras_env) (st : ras_state) (jdata : orte_job_t) :
    ras_result :=
  if st.allocation_read then
    { rc := ORTE_SUCCESS, st := st, jdata := jdata, calls := [] }
  else
    from_module env { st with allocation_read := true } jdata

/-! ## Vocabulary for the statements -/

/-- A call of the node-pool insert. -/
def ras_call.is_insert : ras_call → Bool
  | ras_call.node_insert _ _ _ => true
  | _ => false

/-- A call of the hostfile parser or of the dash-host parser. -/
def ras_call.is_parse : ras_call → Bool
  | ras_call.add_hostfile_nodes _ _ _ => true
  | ras_call.add_dash_host_nodes _ _ _ => true
  | _ => false

/-- A call of a discovery source: the module query or one of the parsers. -/
def ras_call.is_discovery : ras_call → Bool
  | ras_call.node_insert _ _ _ => false
  | _ => true

/-- The status a logged call returned. -/
def ras_call.status : ras_call → Int
  | ras_call.module_allocate rc => rc
  | ras_call.add_hostfile_nodes _ _ rc => rc
  | ras_call.add_dash_host_nodes _ _ rc => rc
  | ras_call.node_insert _ _ rc => rc

/-- The module step yields no node and no error: there is no module, or its
allocate succeeds and leaves the list empty. -/
def module_finds_nothing (env : ras_env) : Prop :=
  match env.active_module with
  | none => True
  | some allocate => (allocate []).1 = ORTE_SUCCESS ∧ (allocate []).2 = []

/-- The locals after the default hostfile step, when that step is reached
(`nodes` is then empty and the override variable not yet written). -/
def default_hostfile_step (env : ras_env) : loop_result :=
  default_hostfile_parse env [] env.override_uninit

/-- The locals after the per-app hostfile loop, when that loop is reached. -/
def app_hostfiles_step (env : ras_env) (jdata : orte_job_t) : loop_result :=
  hostfile_loop env jdata.apps (default_hostfile_step env).nodes
    (default_hostfile_step env).override_oversubscribed

/-- The locals after the dash-host loop, when that loop is reached. -/
def dash_host_step (env : ras_env) (jdata : orte_job_t) : loop_result :=
  dash_host_loop env jdata.apps (app_hostfiles_step env jdata).nodes
    (app_hostfiles_step env jdata).override_oversubscribed

/-- A step that ended without error and left `nodes` empty. -/
abbrev loop_result.nothing (s : loop_result) : Prop :=
  s.rc = ORTE_SUCCESS ∧ s.nodes = []

/-- A sequence of calls of `orte_ras_base_allocate` in one process: each call
has its own job and its own behaviour of the collaborators, and starts in the
state the call before it left. -/
def allocate_calls : ras_state → List (ras_env × orte_job_t) → List ras_result
  | _, [] => []
  | st, (env, jdata) :: rest =>
    orte_ras_base_allocate env st jdata
      :: allocate_calls (orte_ras_base_allocate env st jdata).st rest

/-- All collaborator calls made by a sequence of runs, in order. -/
def all_calls : List ras_result → List ras_call
  | [] => []
  | r :: rest => r.calls ++ all_calls rest

/-- A call of the dash-host parser. -/
def ras_call.is_dash_host : ras_call → Bool
  | ras_call.add_dash_host_nodes _ _ _ => true
  | _ => false

/-- A call of the hostfile parser. -/
def ras_call.is_hostfile : ras_call → Bool
  | ras_call.add_hostfile_nodes _ _ _ => true
  | _ => false

/-- The test of line 220 for "this app context carries a dash-host
specification": `num_map` counts the entries given with the -host option. -/
def orte_app_context_t.has_dash_host (app : orte_app_context_t) : Bool :=
  decide (0 < app.num_map)

/-- The per-app hostfile step in the words of the design: the given hostfile
paths are parsed one after the other, each parse getting the list and the
override variable the parse before it left, and the calls are logged in that
order.  Errors are not part of this description. -/
def hostfile_union (env : ras_env) :
    List String → List orte_node_t → Bool → loop_result
  | [], nodes, ov =>
    { rc := ORTE_SUCCESS, nodes := nodes, override_oversubscribed := ov, calls := [] }
  | file :: rest, nodes, ov =>
    { rc := ORTE_SUCCESS,
      nodes := (hostfile_union env rest
        (env.orte_util_add_hostfile_nodes nodes ov file).2.1
        (env.orte_util_add_hostfile_nodes nodes ov file).2.2).nodes,
      override_oversubscribed := (hostfile_union env rest
        (env.orte_util_add_hostfile_nodes nodes ov file).2.1
        (env.orte_util_add_hostfile_nodes nodes ov file).2.2).override_oversubscribed,
      calls := ras_call.add_hostfile_nodes nodes file
          (env.orte_util_add_hostfile_nodes nodes ov file).1
        :: (hostfile_union env rest
        (env.orte_util_add_hostfile_nodes nodes ov file).2.1
        (env.orte_util_add_hostfile_nodes nodes ov file).2.2).calls }

/-- The dash-host step in the words of the design: the given dash-host
specifications are parsed one after the other into one combined list, each
parse getting the list and the override variable the parse before it left.
Errors are not part of this description. -/
def dash_host_union (env : ras_env) :
    List (List String) → List orte_node_t → Bool → loop_result
  | [], nodes, ov =>
    { rc := ORTE_SUCCESS, nodes := nodes, override_oversubscribed := ov, calls := [] }
  | spec :: rest, nodes, ov =>
    { rc := ORTE_SUCCESS,
      nodes := (dash_host_union env rest
        (env.orte_util_add_dash_host_nodes nodes ov spec).2.1
        (env.orte_util_add_dash_host_nodes nodes ov spec).2.2).nodes,
      override_oversubscribed := (dash_host_union env rest
        (env.orte_util_add_dash_host_nodes nodes ov spec).2.1
        (env.orte_util_add_dash_host_nodes nodes ov spec).2.2).override_oversubscribed,
      calls := ras_call.add_dash_host_nodes nodes spec
          (env.orte_util_add_dash_host_nodes nodes ov spec).1
        :: (dash_host_union env rest
        (env.orte_util_add_dash_host_nodes nodes ov spec).2.1
        (env.orte_util_add_dash_host_nodes nodes ov spec).2.2).calls }

/-! ### The ways a call can end -/

/-- Calls of discovery sources that all returned success. -/
def quiet (cs : List ras_call) : Prop :=
  ∀ c ∈ cs, c.is_discovery = true ∧ c.status = ORTE_SUCCESS

/-- The run stopped at a discovery call that returned an error: that call is
the last one, its status is returned, job and state are as they were. -/
def aborted (st : ras_state) (jdata : orte_job_t) (r : ras_result) : Prop :=
  ∃ before c, r.calls = before ++ [c] ∧ quiet before ∧ c.is_discovery = true ∧
    c.status ≠ ORTE_SUCCESS ∧ r.rc = c.status ∧ r.jdata = jdata ∧ r.st = st

/-- The run ended with one insert of a non-empty list, whose status is
returned and whose pool is kept. -/
def committed (env : ras_env) (st : ras_state) (r : ras_result) : Prop :=
  ∃ before nodes j, nodes ≠ [] ∧ quiet before ∧
    r.calls = before ++ [ras_call.node_insert nodes j
      (env.orte_ras_base_node_insert st.orte_node_pool nodes j).1] ∧
    r.rc = (env.orte_ras_base_node_insert st.orte_node_pool nodes j).1 ∧
    r.st = { st with orte_node_pool :=
      (env.orte_ras_base_node_insert st.orte_node_pool nodes j).2 }

/-- The run ended because the local node object could not be constructed. -/
def exhausted (st : ras_state) (jdata : orte_job_t) (r : ras_result) : Prop :=
  quiet r.calls ∧ r.rc = ORTE_ERR_OUT_OF_RESOURCE ∧ r.jdata = jdata ∧ r.st = st

/-- The ways a run can end, closed under putting successful discovery calls
in front. -/
def ended (env : ras_env) (st : ras_state) (jdata : orte_job_t) (r : ras_result) : Prop :=
  aborted st jdata r ∨ committed env st r ∨ exhausted st jdata r

/-- A loop either ran to its end with successful parses only, or stopped at a
parse that returned the error the loop reports. -/
def loop_ended (s : loop_result) : Prop :=
  (s.rc = ORTE_SUCCESS ∧ quiet s.calls) ∨
  (s.rc ≠ ORTE_SUCCESS ∧ ∃ before c, s.calls = before ++ [c] ∧ quiet before ∧
    c.is_parse = true ∧ c.status = s.rc)

/-! ## Sample data for the concrete instances -/

/-- A sample node. -/
def sample_node (name : String) (slots : Int) : orte_node_t :=
  { name := name, state := orte_node_state_t.UP, slots_inuse := 0, slots_max := 0,
    slots := slots }

/-- A sample environment: no module, no default hostfile, parsers that add
nothing and report no oversubscription override, an insert that appends to the
pool and succeeds, a working allocator. -/
def sample_env : ras_env :=
  { active_module := none,
    orte_default_hostfile := none,
    orte_util_add_hostfile_nodes := fun nodes _ _ => (ORTE_SUCCESS, nodes, false),
    orte_util_add_dash_host_nodes := fun nodes _ _ => (ORTE_SUCCESS, nodes, false),
    orte_ras_base_node_insert := fun pool nodes _ => (ORTE_SUCCESS, pool ++ nodes),
    obj_new_node := true,
    nodename := "hnp",
    override_uninit := false }

/-- A sample job: one app context without hostfile or dash-host. -/
def sample_job (flag : Bool) : orte_job_t :=
  { apps := [{ hostfile := none, num_map := 0, dash_host := [] }],
    oversubscribe_override := flag }

/-- A module that fails with status 7. -/
def sample_failing_module : List orte_node_t → Int × List orte_node_t :=
  fun nodes => (7, nodes)

/-- A module that finds the node "m0" with four slots. -/
def sample_module : List orte_node_t → Int × List orte_node_t :=
  fun nodes => (ORTE_SUCCESS, nodes ++ [sample_node "m0" 4])

/-- A hostfile parser that adds the node "h0" with two slots and reports the
override hint `hint`. -/
def sample_hostfile_reader (hint : Bool) :
    List orte_node_t → Bool → String → Int × List orte_node_t × Bool :=
  fun nodes _ _ => (ORTE_SUCCESS, nodes ++ [sample_node "h0" 2], hint)

/-- A hostfile parser that fails with status 5 on the file "bad" and otherwise
adds the node "h0" with two slots, with hint true. -/
def sample_picky_reader :
    List orte_node_t → Bool → String → Int × List orte_node_t × Bool :=
  fun nodes _ file =>
    if file = "bad" then (5, nodes, true)
    else (ORTE_SUCCESS, nodes ++ [sample_node "h0" 2], true)

/-- A job with three app contexts: a hostfile "good", a hostfile "bad", a
dash-host. -/
def sample_job_three (flag : Bool) : orte_job_t :=
  { apps := [{ hostfile := some "good", num_map := 0, dash_host := [] },
             { hostfile := some "bad", num_map := 0, dash_host := [] },
             { hostfile := none, num_map := 1, dash_host := ["d0"] }],
    oversubscribe_override := flag }

/-- Add to `pool` the nodes of `nodes` whose name is not in it yet, in order. -/
def merge_by_name : List orte_node_t → List orte_node_t → List orte_node_t
  | pool, [] => pool
  | pool, n :: rest =>
    if pool.any (fun p => decide (p.name = n.name)) then merge_by_name pool rest
    else merge_by_name (pool ++ [n]) rest

/-- Modelled from the spec: the hostfile parser `orte_util_add_hostfile_nodes`
(orte/util/hostfile, whose code is not in ras_base_allocate.c), as the design
describes it: it "parses a list-of-nodes file", "additive/union when invoked
across multiple files in one pass".  `contents` gives the nodes each file
lists, `hint` the oversubscription hint it reports. -/
def spec_add_hostfile_nodes (contents : String → List orte_node_t) (hint : Bool) :
    List orte_node_t → Bool → String → Int × List orte_node_t × Bool :=
  fun nodes _ file => (ORTE_SUCCESS, merge_by_name nodes (contents file), hint)

/-- Modelled from the spec: the dash-host parser `orte_util_add_dash_host_nodes`
(orte/util/dash_host, whose code is not in ras_base_allocate.c), as the design
describes it: it "parses an inline per-application host specification" and
unions the hosts into the combined list.  Every host named gets `slots` slots;
`hint` is the oversubscription hint it reports. -/
def spec_add_dash_host_nodes (slots : Int) (hint : Bool) :
    List orte_node_t → Bool → List String → Int × List orte_node_t × Bool :=
  fun nodes _ hosts =>
    (ORTE_SUCCESS, merge_by_name nodes (hosts.map fun h => sample_node h slots), hint)

/-- Modelled from the spec: the node-pool insert `orte_ras_base_node_insert`
(ras_base_node.c, whose code is not in ras_base_allocate.c), as the design
describes it: it "merges the given nodes into the canonical pool, deduplicating
by name". -/
def spec_node_insert :
    List orte_node_t → List orte_node_t → orte_job_t → Int × List orte_node_t :=
  fun pool nodes _ => (ORTE_SUCCESS, merge_by_name pool nodes)

/-- The files of the examples: "A.hosts" lists n1 and n2, "B.hosts" lists n2
and n3, "nodeA.hosts" lists nodeA with four slots. -/
def sample_contents : String → List orte_node_t :=
  fun file =>
    if file = "A.hosts" then [sample_node "n1" 1, sample_node "n2" 1]
    else if file = "B.hosts" then [sample_node "n2" 1, sample_node "n3" 1]
    else if file = "nodeA.hosts" then [sample_node "nodeA" 4]
    else []

/-- An environment without module and default hostfile whose parsers and
insert are the ones modelled from the design; the hostfile parser reports the
hint `hint`. -/
def sample_union_env (hint : Bool) : ras_env :=
  { sample_env with
    orte_util_add_hostfile_nodes := spec_add_hostfile_nodes sample_contents hint,
    orte_util_add_dash_host_nodes := spec_add_dash_host_nodes 2 false,
    orte_ras_base_node_insert := spec_node_insert }

/-- A job with two app contexts, with the hostfiles "A.hosts" and "B.hosts". -/
def sample_job_two_hostfiles (flag : Bool) : orte_job_t :=
  { apps := [{ hostfile := some "A.hosts", num_map := 0, dash_host := [] },
             { hostfile := some "B.hosts", num_map := 0, dash_host := [] }],
    oversubscribe_override := flag }

/-- A job with two app contexts: A with the hostfile "nodeA.hosts", B without
hostfile and with the dash-host "nodeB". -/
def sample_job_hostfile_and_dash_host (flag : Bool) : orte_job_t :=
  { apps := [{ hostfile := some "nodeA.hosts", num_map := 0, dash_host := [] },
             { hostfile := none, num_map := 1, dash_host := ["nodeB"] }],
    oversubscribe_override := flag }

/-- A job with two app contexts that both carry a dash-host. -/
def sample_job_two_dash_hosts (flag : Bool) : orte_job_t :=
  { apps := [{ hostfile := none, num_map := 1, dash_host := ["d0"] },
             { hostfile := none, num_map := 1, dash_host := ["d1"] }],
    oversubscribe_override := flag }

/-- A dash-host parser that fails with status 6 on the host "d0" and
otherwise adds the hosts it is given, with hint true. -/
def sample_picky_dash_host :
    List orte_node_t → Bool → List String → Int × List orte_node_t × Bool :=
  fun nodes ov hosts =>
    if hosts = ["d0"] then (6, nodes, ov)
    else (ORTE_SUCCESS, merge_by_name nodes (hosts.map fun h => sample_node h 1), true)

/-- A job with two app contexts, with the hostfiles "bad" and "good". -/
def sample_job_bad_first (flag : Bool) : orte_job_t :=
  { apps := [{ hostfile := some "bad", num_map := 0, dash_host := [] },
             { hostfile := some "good", num_map := 0, dash_host := [] }],
    oversubscribe_override := flag }

/-- A hostfile parser that unions by name the nodes of `sample_contents` and
reports the hint true for the file "B.hosts" only. -/
def sample_hint_by_file :
    List orte_node_t → Bool → String → Int × List orte_node_t × Bool :=
  fun nodes _ file =>
    (ORTE_SUCCESS, merge_by_name nodes (sample_contents file), decide (file = "B.hosts"))

/-- An environment whose default hostfile "none.hosts" lists no node and whose
hostfile parser is `sample_hint_by_file`. -/
def sample_hint_env : ras_env :=
  { sample_env with orte_default_hostfile := some "none.hosts",
                    orte_util_add_hostfile_nodes := sample_hint_by_file }

/-- A module that succeeds and finds no node. -/
def sample_empty_module : List orte_node_t → Int × List orte_node_t :=
  fun nodes => (ORTE_SUCCESS, nodes)

/-! ## Facts about the steps: the latch is never cleared -/

@[simp] theorem after_st (cs : List ras_call) (r : ras_result) : (r.after cs).st = r.st := rfl

@[simp] theorem after_rc (cs : List ras_call) (r : ras_result) : (r.after cs).rc = r.rc := rfl

@[simp] theorem after_jdata (cs : List ras_call) (r : ras_result) :
    (r.after cs).jdata = r.jdata := rfl

@[simp] theorem after_calls (cs : List ras_call) (r : ras_result) :
    (r.after cs).calls = cs ++ r.calls := rfl

theorem store_with_override_latch (env : ras_env) (st : ras_state) (jdata : orte_job_t)
    (nodes : List orte_node_t) (ov : Bool) :
    (store_with_override env st jdata nodes ov).st.allocation_read = st.allocation_read := rfl

theorem local_fallback_latch (env : ras_env) (st : ras_state) (jdata : orte_job_t)
    (nodes : List orte_node_t) :
    (local_fallback env st jdata nodes).st.allocation_read = st.allocation_read := by
  unfold local_fallback
  split_ifs
  · rfl
  · simp only []
    split_ifs <;> rfl

theorem from_dash_host_latch (env : ras_env) (st : ras_state) (jdata : orte_job_t)
    (nodes : List orte_node_t) (ov : Bool) :
    (from_dash_host env st jdata nodes ov).st.allocation_read = st.allocation_read := by
  unfold from_dash_host
  simp only []
  split_ifs
  · rfl
  · simp [store_with_override_latch]
  · simp [local_fallback_latch]

theorem from_app_hostfiles_latch (env : ras_env) (st : ras_state) (jdata : orte_job_t)
    (nodes : List orte_node_t) (ov : Bool) :
    (from_app_hostfiles env st jdata nodes ov).st.allocation_read = st.allocation_read := by
  unfold from_app_hostfiles
  simp only []
  split_ifs
  · rfl
  · simp [store_with_override_latch]
  · simp [from_dash_host_latch]

theorem after_default_hostfile_latch (env : ras_env) (st : ras_state) (jdata : orte_job_t)
    (nodes : List orte_node_t) (ov : Bool) :
    (after_default_hostfile env st jdata nodes ov).st.allocation_read
      = st.allocation_read := by
  unfold after_default_hostfile
  split_ifs
  · exact store_with_override_latch env st jdata nodes ov
  · exact from_app_hostfiles_latch env st jdata nodes ov

theorem from_default_hostfile_latch (env : ras_env) (st : ras_state) (jdata : orte_job_t)
    (nodes : List orte_node_t) :
    (from_default_hostfile env st jdata nodes).st.allocation_read = st.allocation_read := by
  unfold from_default_hostfile
  simp only []
  split_ifs
  · rfl
  · simp [after_default_hostfile_latch]

theorem after_module_latch (env : ras_env) (st : ras_state) (jdata : orte_job_t)
    (nodes : List orte_node_t) :
    (after_module env st jdata nodes).st.allocation_read = st.allocation_read := by
  unfold after_module
  simp only []
  split_ifs
  · rfl
  · rfl
  · exact from_default_hostfile_latch env st jdata nodes

theorem from_module_latch (env : ras_env) (st : ras_state) (jdata : orte_job_t) :
    (from_module env st jdata).st.allocation_read = st.allocation_read := by
  unfold from_module
  simp only []
  split_ifs
  · rfl
  · simp [after_module_latch]

theorem allocate_sets_latch (env : ras_env) (st : ras_state) (jdata : orte_job_t) :
    (orte_ras_base_allocate env st jdata).st.allocation_read = true := by
  unfold orte_ras_base_allocate
  split_ifs with h
  · exact h
  · simp [from_module_latch]

theorem allocate_of_latched (env : ras_env) (st : ras_state) (jdata : orte_job_t)
    (h : st.allocation_read = true) :
    orte_ras_base_allocate env st jdata
      = { rc := ORTE_SUCCESS, st := st, jdata := jdata, calls := [] } := by
  simp [orte_ras_base_allocate, h]

theorem allocate_of_unlatched (env : ras_env) (st : ras_state) (jdata : orte_job_t)
    (h : st.allocation_read = false) :
    orte_ras_base_allocate env st jdata
      = from_module env { st with allocation_read := true } jdata := by
  simp [orte_ras_base_allocate, h]

theorem from_module_of_error (env : ras_env) (st : ras_state) (jdata : orte_job_t)
    (allocate : List orte_node_t → Int × List orte_node_t)
    (hm : env.active_module = some allocate) (he : (allocate []).1 ≠ ORTE_SUCCESS) :
    from_module env st jdata
      = { rc := (allocate []).1, st := st, jdata := jdata,
          calls := [ras_call.module_allocate (allocate []).1] } := by
  simp [from_module, module_query, hm, he]

theorem from_module_of_nodes (env : ras_env) (st : ras_state) (jdata : orte_job_t)
    (allocate : List orte_node_t → Int × List orte_node_t)
    (hm : env.active_module = some allocate) (hs : (allocate []).1 = ORTE_SUCCESS)
    (hn : (allocate []).2 ≠ []) :
    from_module env st jdata
      = { rc := (env.orte_ras_base_node_insert st.orte_node_pool (allocate []).2 jdata).1,
          st := { st with orte_node_pool :=
            (env.orte_ras_base_node_insert st.orte_node_pool (allocate []).2 jdata).2 },
          jdata := jdata,
          calls := [ras_call.module_allocate ORTE_SUCCESS,
            ras_call.node_insert (allocate []).2 jdata
              (env.orte_ras_base_node_insert st.orte_node_pool (allocate []).2 jdata).1] } := by
  simp only [from_module, module_query, hm, hs, after_module, ne_eq, not_true_eq_false,
    if_false]
  have he : (allocate []).2.isEmpty = false := by
    cases h : (allocate []).2 with
    | nil => exact absurd h hn
    | cons a l => rfl
  simp only [he, Bool.not_false, if_true]
  split_ifs with h
  · simp [ras_result.after, h]
  · rfl

/-! ## Facts about the steps: which step ends the call -/

theorem isEmpty_eq_false_of_ne_nil {α : Type} (l : List α) (h : l ≠ []) :
    l.isEmpty = false := by
  cases l with
  | nil => exact absurd rfl h
  | cons a t => rfl

theorem module_query_of_nothing (env : ras_env) (h : module_finds_nothing env) :
    (module_query env []).1 = ORTE_SUCCESS ∧ (module_query env []).2.1 = [] ∧
    (module_query env []).2.2.filter ras_call.is_insert = [] ∧
    (module_query env []).2.2.filter ras_call.is_parse = [] := by
  unfold module_finds_nothing at h
  unfold module_query
  split
  · next allocate hm =>
    rw [hm] at h
    simp only [] at h
    simp [h.1, h.2, ras_call.is_insert, ras_call.is_parse]
  · simp

theorem from_module_of_nothing (env : ras_env) (st : ras_state) (jdata : orte_job_t)
    (h : module_finds_nothing env) :
    from_module env st jdata
      = (from_default_hostfile env st jdata []).after (module_query env []).2.2 := by
  have hq := module_query_of_nothing env h
  simp [from_module, after_module, hq.1, hq.2.1]

theorem from_default_hostfile_of_nodes (env : ras_env) (st : ras_state) (jdata : orte_job_t)
    (hs : (default_hostfile_parse env [] env.override_uninit).rc = ORTE_SUCCESS)
    (hn : (default_hostfile_parse env [] env.override_uninit).nodes ≠ []) :
    from_default_hostfile env st jdata []
      = (store_with_override env st jdata
          (default_hostfile_parse env [] env.override_uninit).nodes
          (default_hostfile_parse env [] env.override_uninit).override_oversubscribed).after
          (default_hostfile_parse env [] env.override_uninit).calls := by
  simp [from_default_hostfile, after_default_hostfile, hs, isEmpty_eq_false_of_ne_nil _ hn]

theorem from_default_hostfile_of_nothing (env : ras_env) (st : ras_state)
    (jdata : orte_job_t) (h : (default_hostfile_step env).nothing) :
    from_default_hostfile env st jdata []
      = (from_app_hostfiles env st jdata (default_hostfile_step env).nodes
          (default_hostfile_step env).override_oversubscribed).after
          (default_hostfile_step env).calls := by
  unfold default_hostfile_step at *
  simp [from_default_hostfile, after_default_hostfile, h.1, h.2]

theorem from_app_hostfiles_of_nothing (env : ras_env) (st : ras_state)
    (jdata : orte_job_t) (h : (app_hostfiles_step env jdata).nothing) :
    from_app_hostfiles env st jdata (default_hostfile_step env).nodes
        (default_hostfile_step env).override_oversubscribed
      = (from_dash_host env st jdata (app_hostfiles_step env jdata).nodes
          (app_hostfiles_step env jdata).override_oversubscribed).after
          (app_hostfiles_step env jdata).calls := by
  unfold app_hostfiles_step at *
  simp [from_app_hostfiles, h.1, h.2]

theorem from_dash_host_of_nothing (env : ras_env) (st : ras_state)
    (jdata : orte_job_t) (h : (dash_host_step env jdata).nothing) :
    from_dash_host env st jdata (app_hostfiles_step env jdata).nodes
        (app_hostfiles_step env jdata).override_oversubscribed
      = (local_fallback env st jdata []).after (dash_host_step env jdata).calls := by
  unfold dash_host_step at *
  simp [from_dash_host, h.1, h.2]

theorem local_fallback_of_node (env : ras_env) (st : ras_state) (jdata : orte_job_t)
    (nodes : List orte_node_t) (hobj : env.obj_new_node = true) :
    local_fallback env st jdata nodes
      = { rc := (env.orte_ras_base_node_insert st.orte_node_pool (nodes ++ [local_node env])
                  { jdata with oversubscribe_override := true }).1,
          st := { st with orte_node_pool :=
            (env.orte_ras_base_node_insert st.orte_node_pool (nodes ++ [local_node env])
                  { jdata with oversubscribe_override := true }).2 },
          jdata := { jdata with oversubscribe_override := true },
          calls := [ras_call.node_insert (nodes ++ [local_node env])
            { jdata with oversubscribe_override := true }
            (env.orte_ras_base_node_insert st.orte_node_pool (nodes ++ [local_node env])
                  { jdata with oversubscribe_override := true }).1] } := by
  unfold local_fallback
  rw [if_neg (by simp [hobj])]
  simp only []
  split_ifs with hi
  · rfl
  · simp only [ne_eq, not_not] at hi
    simp [hi]

theorem allocate_of_nothing_found (env : ras_env) (st : ras_state) (jdata : orte_job_t)
    (hl : st.allocation_read = false)
    (hm : module_finds_nothing env)
    (hd : (default_hostfile_step env).nothing)
    (ha : (app_hostfiles_step env jdata).nothing)
    (hh : (dash_host_step env jdata).nothing) :
    orte_ras_base_allocate env st jdata
      = (local_fallback env { st with allocation_read := true } jdata []).after
          ((module_query env []).2.2 ++ ((default_hostfile_step env).calls ++
            ((app_hostfiles_step env jdata).calls ++ (dash_host_step env jdata).calls))) := by
  rw [allocate_of_unlatched env st jdata hl, from_module_of_nothing env _ jdata hm,
    from_default_hostfile_of_nothing env _ jdata hd,
    from_app_hostfiles_of_nothing env _ jdata ha,
    from_dash_host_of_nothing env _ jdata hh]
  simp [ras_result.after]

theorem hostfile_loop_no_insert (env : ras_env) (apps : List orte_app_context_t)
    (nodes : List orte_node_t) (ov : Bool) :
    (hostfile_loop env apps nodes ov).calls.filter ras_call.is_insert = [] := by
  induction apps generalizing nodes ov with
  | nil => rfl
  | cons app rest ih =>
    unfold hostfile_loop
    split
    · exact ih nodes ov
    · simp only []
      split_ifs
      · rfl
      · simp [ras_call.is_insert, ih]

theorem dash_host_loop_no_insert (env : ras_env) (apps : List orte_app_context_t)
    (nodes : List orte_node_t) (ov : Bool) :
    (dash_host_loop env apps nodes ov).calls.filter ras_call.is_insert = [] := by
  induction apps generalizing nodes ov with
  | nil => rfl
  | cons app rest ih =>
    unfold dash_host_loop
    split_ifs
    · simp only []
      split_ifs
      · rfl
      · simp [ras_call.is_insert, ih]
    · exact ih nodes ov

theorem default_hostfile_parse_no_insert (env : ras_env) (nodes : List orte_node_t)
    (ov : Bool) :
    (default_hostfile_parse env nodes ov).calls.filter ras_call.is_insert = [] := by
  unfold default_hostfile_parse
  split <;> rfl

theorem module_query_no_insert (env : ras_env) (nodes : List orte_node_t) :
    (module_query env nodes).2.2.filter ras_call.is_insert = [] := by
  unfold module_query
  split <;> rfl

/-! ## The three ways a first call can end -/

theorem quiet_nil : quiet [] := by
  intro c hc
  cases hc

theorem quiet_append {xs ys : List ras_call} (hx : quiet xs) (hy : quiet ys) :
    quiet (xs ++ ys) := by
  intro c hc
  rcases List.mem_append.mp hc with h | h
  · exact hx c h
  · exact hy c h

theorem quiet_cons {c : ras_call} {cs : List ras_call} (hd : c.is_discovery = true)
    (hs : c.status = ORTE_SUCCESS) (hq : quiet cs) : quiet (c :: cs) := by
  intro d hd2
  rcases List.mem_cons.mp hd2 with h | h
  · subst h
    exact ⟨hd, hs⟩
  · exact hq d h

theorem quiet_filter_insert {cs : List ras_call} (h : quiet cs) :
    cs.filter ras_call.is_insert = [] := by
  rw [List.filter_eq_nil_iff]
  intro c hc
  have := (h c hc).1
  cases c <;> simp_all [ras_call.is_insert, ras_call.is_discovery]

theorem aborted_after {st : ras_state} {jdata : orte_job_t} {r : ras_result}
    {cs : List ras_call} (hq : quiet cs) (h : aborted st jdata r) :
    aborted st jdata (r.after cs) := by
  obtain ⟨before, c, hc, hb, hd, hs, hrc, hj, hst⟩ := h
  exact ⟨cs ++ before, c, by simp [hc], quiet_append hq hb, hd, hs, hrc, hj, hst⟩

theorem committed_after {env : ras_env} {st : ras_state} {r : ras_result}
    {cs : List ras_call} (hq : quiet cs) (h : committed env st r) :
    committed env st (r.after cs) := by
  obtain ⟨before, nodes, j, hn, hb, hc, hrc, hst⟩ := h
  exact ⟨cs ++ before, nodes, j, hn, quiet_append hq hb, by simp [hc], hrc, hst⟩

theorem exhausted_after {st : ras_state} {jdata : orte_job_t} {r : ras_result}
    {cs : List ras_call} (hq : quiet cs) (h : exhausted st jdata r) :
    exhausted st jdata (r.after cs) := by
  obtain ⟨hc, hrc, hj, hst⟩ := h
  exact ⟨by simpa using quiet_append hq hc, hrc, hj, hst⟩

theorem ended_after {env : ras_env} {st : ras_state} {jdata : orte_job_t}
    {r : ras_result} {cs : List ras_call} (hq : quiet cs) (h : ended env st jdata r) :
    ended env st jdata (r.after cs) := by
  rcases h with h | h | h
  · exact Or.inl (aborted_after hq h)
  · exact Or.inr (Or.inl (committed_after hq h))
  · exact Or.inr (Or.inr (exhausted_after hq h))

theorem hostfile_loop_ended (env : ras_env) (apps : List orte_app_context_t)
    (nodes : List orte_node_t) (ov : Bool) :
    loop_ended (hostfile_loop env apps nodes ov) := by
  induction apps generalizing nodes ov with
  | nil => exact Or.inl ⟨rfl, quiet_nil⟩
  | cons app rest ih =>
    unfold hostfile_loop
    split
    · exact ih nodes ov
    · next file hf =>
      simp only []
      split_ifs with he
      · exact Or.inr ⟨he, [], _, rfl, quiet_nil, rfl, rfl⟩
      · simp only [ne_eq, not_not] at he
        rcases ih (env.orte_util_add_hostfile_nodes nodes ov file).2.1
            (env.orte_util_add_hostfile_nodes nodes ov file).2.2 with h | h
        · exact Or.inl ⟨h.1, quiet_cons rfl he h.2⟩
        · obtain ⟨hrc, before, c, hc, hb, hp, hs⟩ := h
          exact Or.inr ⟨hrc,
            ras_call.add_hostfile_nodes nodes file
              (env.orte_util_add_hostfile_nodes nodes ov file).1 :: before,
            c, by simp [hc], quiet_cons rfl he hb, hp, hs⟩

theorem dash_host_loop_ended (env : ras_env) (apps : List orte_app_context_t)
    (nodes : List orte_node_t) (ov : Bool) :
    loop_ended (dash_host_loop env apps nodes ov) := by
  induction apps generalizing nodes ov with
  | nil => exact Or.inl ⟨rfl, quiet_nil⟩
  | cons app rest ih =>
    unfold dash_host_loop
    split_ifs with hmap
    · simp only []
      split_ifs with he
      · exact Or.inr ⟨he, [], _, rfl, quiet_nil, rfl, rfl⟩
      · simp only [ne_eq, not_not] at he
        rcases ih (env.orte_util_add_dash_host_nodes nodes ov app.dash_host).2.1
            (env.orte_util_add_dash_host_nodes nodes ov app.dash_host).2.2 with h | h
        · exact Or.inl ⟨h.1, quiet_cons rfl he h.2⟩
        · obtain ⟨hrc, before, c, hc, hb, hp, hs⟩ := h
          exact Or.inr ⟨hrc,
            ras_call.add_dash_host_nodes nodes app.dash_host
              (env.orte_util_add_dash_host_nodes nodes ov app.dash_host).1 :: before,
            c, by simp [hc], quiet_cons rfl he hb, hp, hs⟩
    · exact ih nodes ov

theorem default_hostfile_parse_ended (env : ras_env) (nodes : List orte_node_t)
    (ov : Bool) : loop_ended (default_hostfile_parse env nodes ov) := by
  unfold default_hostfile_parse
  split
  · next file hf =>
    simp only []
    by_cases he : (env.orte_util_add_hostfile_nodes nodes ov file).1 = ORTE_SUCCESS
    · exact Or.inl ⟨he, quiet_cons rfl he quiet_nil⟩
    · exact Or.inr ⟨he, [], _, rfl, quiet_nil, rfl, rfl⟩
  · exact Or.inl ⟨rfl, quiet_nil⟩

theorem is_discovery_of_is_parse {c : ras_call} (h : c.is_parse = true) :
    c.is_discovery = true := by
  cases c <;> simp_all [ras_call.is_parse, ras_call.is_discovery]

theorem aborted_of_loop_error {st : ras_state} {jdata : orte_job_t} {s : loop_result}
    (h : loop_ended s) (he : s.rc ≠ ORTE_SUCCESS) :
    aborted st jdata { rc := s.rc, st := st, jdata := jdata, calls := s.calls } := by
  rcases h with h | h
  · exact absurd h.1 he
  · obtain ⟨_, before, c, hc, hb, hp, hs⟩ := h
    exact ⟨before, c, hc, hb, is_discovery_of_is_parse hp, by rw [hs]; exact he, hs.symm,
      rfl, rfl⟩

theorem quiet_of_loop_success {s : loop_result} (h : loop_ended s)
    (hs : s.rc = ORTE_SUCCESS) : quiet s.calls := by
  rcases h with h | h
  · exact h.2
  · exact absurd hs h.1

theorem store_with_override_committed (env : ras_env) (st : ras_state)
    (jdata : orte_job_t) (nodes : List orte_node_t) (ov : Bool) (hn : nodes ≠ []) :
    committed env st (store_with_override env st jdata nodes ov) :=
  ⟨[], nodes, jdata, hn, quiet_nil, rfl, rfl, rfl⟩

theorem ne_nil_of_isEmpty_eq_false {α : Type} {l : List α} (h : l.isEmpty = false) :
    l ≠ [] := by
  intro hl
  subst hl
  cases h

theorem local_fallback_ended (env : ras_env) (st : ras_state) (jdata : orte_job_t)
    (nodes : List orte_node_t) : ended env st jdata (local_fallback env st jdata nodes) := by
  cases hobj : env.obj_new_node with
  | false =>
    refine Or.inr (Or.inr ?_)
    simp only [local_fallback, hobj, if_true]
    exact ⟨quiet_nil, rfl, rfl, rfl⟩
  | true =>
    refine Or.inr (Or.inl ?_)
    rw [local_fallback_of_node env st jdata nodes hobj]
    exact ⟨[], nodes ++ [local_node env], { jdata with oversubscribe_override := true },
      by simp, quiet_nil, rfl, rfl, rfl⟩

theorem from_dash_host_ended (env : ras_env) (st : ras_state) (jdata : orte_job_t)
    (nodes : List orte_node_t) (ov : Bool) :
    ended env st jdata (from_dash_host env st jdata nodes ov) := by
  have hloop := dash_host_loop_ended env jdata.apps nodes ov
  unfold from_dash_host
  simp only []
  split_ifs with he hn
  · exact Or.inl (aborted_of_loop_error hloop he)
  · simp only [ne_eq, not_not] at he
    simp only [Bool.not_eq_true'] at hn
    exact ended_after (quiet_of_loop_success hloop he)
      (Or.inr (Or.inl (store_with_override_committed env st jdata _ _
        (ne_nil_of_isEmpty_eq_false hn))))
  · simp only [ne_eq, not_not] at he
    exact ended_after (quiet_of_loop_success hloop he) (local_fallback_ended env st jdata _)

theorem from_app_hostfiles_ended (env : ras_env) (st : ras_state) (jdata : orte_job_t)
    (nodes : List orte_node_t) (ov : Bool) :
    ended env st jdata (from_app_hostfiles env st jdata nodes ov) := by
  have hloop := hostfile_loop_ended env jdata.apps nodes ov
  unfold from_app_hostfiles
  simp only []
  split_ifs with he hn
  · exact Or.inl (aborted_of_loop_error hloop he)
  · simp only [ne_eq, not_not] at he
    simp only [Bool.not_eq_true'] at hn
    exact ended_after (quiet_of_loop_success hloop he)
      (Or.inr (Or.inl (store_with_override_committed env st jdata _ _
        (ne_nil_of_isEmpty_eq_false hn))))
  · simp only [ne_eq, not_not] at he
    exact ended_after (quiet_of_loop_success hloop he) (from_dash_host_ended env st jdata _ _)

theorem after_default_hostfile_ended (env : ras_env) (st : ras_state) (jdata : orte_job_t)
    (nodes : List orte_node_t) (ov : Bool) :
    ended env st jdata (after_default_hostfile env st jdata nodes ov) := by
  unfold after_default_hostfile
  split_ifs with hn
  · simp only [Bool.not_eq_true'] at hn
    exact Or.inr (Or.inl (store_with_override_committed env st jdata _ _
        (ne_nil_of_isEmpty_eq_false hn)))
  · exact from_app_hostfiles_ended env st jdata nodes ov

theorem from_default_hostfile_ended (env : ras_env) (st : ras_state) (jdata : orte_job_t)
    (nodes : List orte_node_t) :
    ended env st jdata (from_default_hostfile env st jdata nodes) := by
  have hloop := default_hostfile_parse_ended env nodes env.override_uninit
  unfold from_default_hostfile
  simp only []
  split_ifs with he
  · exact Or.inl (aborted_of_loop_error hloop he)
  · simp only [ne_eq, not_not] at he
    exact ended_after (quiet_of_loop_success hloop he)
      (after_default_hostfile_ended env st jdata _ _)

theorem after_module_ended (env : ras_env) (st : ras_state) (jdata : orte_job_t)
    (nodes : List orte_node_t) : ended env st jdata (after_module env st jdata nodes) := by
  unfold after_module
  split_ifs with hn
  · simp only [Bool.not_eq_true'] at hn
    refine Or.inr (Or.inl ⟨[], nodes, jdata, ne_nil_of_isEmpty_eq_false hn, quiet_nil, ?_⟩)
    simp only []
    split_ifs with hi
    · exact ⟨rfl, rfl, rfl⟩
    · simp only [ne_eq, not_not] at hi
      exact ⟨rfl, hi.symm, rfl⟩
  · exact from_default_hostfile_ended env st jdata nodes

theorem from_module_ended (env : ras_env) (st : ras_state) (jdata : orte_job_t) :
    ended env st jdata (from_module env st jdata) := by
  unfold from_module
  simp only []
  split_ifs with he
  · refine Or.inl ⟨[], ras_call.module_allocate (module_query env []).1, ?_, quiet_nil,
      rfl, he, rfl, rfl, rfl⟩
    unfold module_query at he ⊢
    split
    · rfl
    · next hnone =>
      rw [hnone] at he
      exact absurd rfl he
  · simp only [ne_eq, not_not] at he
    refine ended_after ?_ (after_module_ended env st jdata _)
    unfold module_query at he ⊢
    split
    · next allocate hm =>
      rw [hm] at he
      exact quiet_cons rfl he quiet_nil
    · exact quiet_nil

theorem allocate_ended (env : ras_env) (st : ras_state) (jdata : orte_job_t)
    (hl : st.allocation_read = false) :
    ended env { st with allocation_read := true } jdata
      (orte_ras_base_allocate env st jdata) := by
  rw [allocate_of_unlatched env st jdata hl]
  exact from_module_ended env _ jdata

theorem insert_count_of_ended {env : ras_env} {st : ras_state} {jdata : orte_job_t}
    {r : ras_result} (h : ended env st jdata r) :
    (r.calls.filter ras_call.is_insert).length ≤ 1 := by
  rcases h with h | h | h
  · obtain ⟨before, c, hc, hb, hd, _, _, _, _⟩ := h
    rw [hc, List.filter_append, quiet_filter_insert hb]
    cases c <;> simp_all [ras_call.is_insert, ras_call.is_discovery]
  · obtain ⟨before, nodes, j, _, hb, hc, _, _⟩ := h
    rw [hc, List.filter_append, quiet_filter_insert hb]
    simp [ras_call.is_insert]
  · rw [quiet_filter_insert h.1]
    simp

theorem allocate_calls_of_latched (st : ras_state) (runs : List (ras_env × orte_job_t))
    (h : st.allocation_read = true) :
    ∀ r ∈ allocate_calls st runs, r.calls = [] := by
  induction runs with
  | nil =>
    intro r hr
    cases hr
  | cons run rest ih =>
    obtain ⟨env, jdata⟩ := run
    intro r hr
    simp only [allocate_calls, allocate_of_latched env st jdata h, List.mem_cons] at hr
    rcases hr with hr | hr
    · rw [hr]
    · exact ih r hr

theorem all_calls_of_no_calls (rs : List ras_result) (h : ∀ r ∈ rs, r.calls = []) :
    all_calls rs = [] := by
  induction rs with
  | nil => rfl
  | cons r rest ih =>
    simp only [all_calls]
    rw [h r (List.mem_cons_self r rest), ih (fun x hx => h x (List.mem_cons_of_mem r hx))]
    rfl

/-- A first call that returns success leaves a non-empty pool, when the insert
keeps its contract: a successful insert of a non-empty list leaves a non-empty
pool. -/
theorem first_call_success_fills_pool (env : ras_env) (st : ras_state) (jdata : orte_job_t)
    (hl : st.allocation_read = false)
    (hins : ∀ pool nodes j, nodes ≠ [] →
      (env.orte_ras_base_node_insert pool nodes j).1 = ORTE_SUCCESS →
      (env.orte_ras_base_node_insert pool nodes j).2 ≠ [])
    (hs : (orte_ras_base_allocate env st jdata).rc = ORTE_SUCCESS) :
    (orte_ras_base_allocate env st jdata).st.orte_node_pool ≠ [] := by
  rcases allocate_ended env st jdata hl with h | h | h
  · obtain ⟨before, c, _, _, _, he, hrc, _, _⟩ := h
    rw [hrc] at hs
    exact absurd hs he
  · obtain ⟨before, nodes, j, hn, _, _, hrc, hst⟩ := h
    rw [hst]
    rw [hrc] at hs
    exact hins _ nodes j hn hs
  · rw [h.2.1] at hs
    exact absurd hs (by decide)

/-! ## Facts about the steps: the per-app hostfile and dash-host paths -/

theorem from_app_hostfiles_of_nodes (env : ras_env) (st : ras_state) (jdata : orte_job_t)
    (hs : (app_hostfiles_step env jdata).rc = ORTE_SUCCESS)
    (hn : (app_hostfiles_step env jdata).nodes ≠ []) :
    from_app_hostfiles env st jdata (default_hostfile_step env).nodes
        (default_hostfile_step env).override_oversubscribed
      = (store_with_override env st jdata (app_hostfiles_step env jdata).nodes
          (app_hostfiles_step env jdata).override_oversubscribed).after
          (app_hostfiles_step env jdata).calls := by
  unfold app_hostfiles_step at *
  simp [from_app_hostfiles, hs, isEmpty_eq_false_of_ne_nil _ hn]

theorem from_dash_host_of_nodes (env : ras_env) (st : ras_state) (jdata : orte_job_t)
    (hs : (dash_host_step env jdata).rc = ORTE_SUCCESS)
    (hn : (dash_host_step env jdata).nodes ≠ []) :
    from_dash_host env st jdata (app_hostfiles_step env jdata).nodes
        (app_hostfiles_step env jdata).override_oversubscribed
      = (store_with_override env st jdata (dash_host_step env jdata).nodes
          (dash_host_step env jdata).override_oversubscribed).after
          (dash_host_step env jdata).calls := by
  unfold dash_host_step at *
  simp [from_dash_host, hs, isEmpty_eq_false_of_ne_nil _ hn]

theorem allocate_of_default_hostfile_nodes (env : ras_env) (st : ras_state)
    (jdata : orte_job_t)
    (hl : st.allocation_read = false)
    (hm : module_finds_nothing env)
    (hs : (default_hostfile_step env).rc = ORTE_SUCCESS)
    (hn : (default_hostfile_step env).nodes ≠ []) :
    orte_ras_base_allocate env st jdata
      = (store_with_override env { st with allocation_read := true } jdata
          (default_hostfile_step env).nodes
          (default_hostfile_step env).override_oversubscribed).after
          ((module_query env []).2.2 ++ (default_hostfile_step env).calls) := by
  rw [allocate_of_unlatched env st jdata hl, from_module_of_nothing env _ jdata hm,
    from_default_hostfile_of_nodes env _ jdata hs hn]
  simp [ras_result.after, default_hostfile_step]

theorem allocate_of_app_hostfiles_nodes (env : ras_env) (st : ras_state)
    (jdata : orte_job_t)
    (hl : st.allocation_read = false)
    (hm : module_finds_nothing env)
    (hd : (default_hostfile_step env).nothing)
    (hs : (app_hostfiles_step env jdata).rc = ORTE_SUCCESS)
    (hn : (app_hostfiles_step env jdata).nodes ≠ []) :
    orte_ras_base_allocate env st jdata
      = (store_with_override env { st with allocation_read := true } jdata
          (app_hostfiles_step env jdata).nodes
          (app_hostfiles_step env jdata).override_oversubscribed).after
          ((module_query env []).2.2 ++ ((default_hostfile_step env).calls ++
            (app_hostfiles_step env jdata).calls)) := by
  rw [allocate_of_unlatched env st jdata hl, from_module_of_nothing env _ jdata hm,
    from_default_hostfile_of_nothing env _ jdata hd,
    from_app_hostfiles_of_nodes env _ jdata hs hn]
  simp [ras_result.after]

theorem allocate_of_dash_host_nodes (env : ras_env) (st : ras_state)
    (jdata : orte_job_t)
    (hl : st.allocation_read = false)
    (hm : module_finds_nothing env)
    (hd : (default_hostfile_step env).nothing)
    (ha : (app_hostfiles_step env jdata).nothing)
    (hs : (dash_host_step env jdata).rc = ORTE_SUCCESS)
    (hn : (dash_host_step env jdata).nodes ≠ []) :
    orte_ras_base_allocate env st jdata
      = (store_with_override env { st with allocation_read := true } jdata
          (dash_host_step env jdata).nodes
          (dash_host_step env jdata).override_oversubscribed).after
          ((module_query env []).2.2 ++ ((default_hostfile_step env).calls ++
            ((app_hostfiles_step env jdata).calls ++ (dash_host_step env jdata).calls))) := by
  rw [allocate_of_unlatched env st jdata hl, from_module_of_nothing env _ jdata hm,
    from_default_hostfile_of_nothing env _ jdata hd,
    from_app_hostfiles_of_nothing env _ jdata ha,
    from_dash_host_of_nodes env _ jdata hs hn]
  simp [ras_result.after]

theorem hostfile_loop_eq_union (env : ras_env) (apps : List orte_app_context_t)
    (nodes : List orte_node_t) (ov : Bool)
    (h : (hostfile_loop env apps nodes ov).rc = ORTE_SUCCESS) :
    hostfile_loop env apps nodes ov
      = hostfile_union env (apps.filterMap fun app => app.hostfile) nodes ov := by
  induction apps generalizing nodes ov with
  | nil => rfl
  | cons app rest ih =>
    cases hf : app.hostfile with
    | none =>
      have hstep : hostfile_loop env (app :: rest) nodes ov = hostfile_loop env rest nodes ov := by
        simp [hostfile_loop, hf]
      rw [hstep] at h ⊢
      rw [ih nodes ov h]
      simp [List.filterMap_cons, hf]
    | some file =>
      by_cases he : (env.orte_util_add_hostfile_nodes nodes ov file).1 = ORTE_SUCCESS
      · have hstep : hostfile_loop env (app :: rest) nodes ov
            = { hostfile_loop env rest (env.orte_util_add_hostfile_nodes nodes ov file).2.1
                  (env.orte_util_add_hostfile_nodes nodes ov file).2.2 with
                calls := ras_call.add_hostfile_nodes nodes file
                    (env.orte_util_add_hostfile_nodes nodes ov file).1
                  :: (hostfile_loop env rest (env.orte_util_add_hostfile_nodes nodes ov file).2.1
                  (env.orte_util_add_hostfile_nodes nodes ov file).2.2).calls } := by
          simp [hostfile_loop, hf, he]
        rw [hstep] at h ⊢
        simp only [] at h
        have hrec := ih _ _ h
        simp only [List.filterMap_cons, hf, hostfile_union]
        rw [← hrec, h]
      · have hstep : (hostfile_loop env (app :: rest) nodes ov).rc
            = (env.orte_util_add_hostfile_nodes nodes ov file).1 := by
          simp [hostfile_loop, hf, he]
        rw [hstep] at h
        exact absurd h he

theorem dash_host_loop_eq_union (env : ras_env) (apps : List orte_app_context_t)
    (nodes : List orte_node_t) (ov : Bool)
    (h : (dash_host_loop env apps nodes ov).rc = ORTE_SUCCESS) :
    dash_host_loop env apps nodes ov
      = dash_host_union env
          ((apps.filter orte_app_context_t.has_dash_host).map fun app => app.dash_host)
          nodes ov := by
  induction apps generalizing nodes ov with
  | nil => rfl
  | cons app rest ih =>
    by_cases hmap : 0 < app.num_map
    · by_cases he :
          (env.orte_util_add_dash_host_nodes nodes ov app.dash_host).1 = ORTE_SUCCESS
      · have hstep : dash_host_loop env (app :: rest) nodes ov
            = { dash_host_loop env rest
                  (env.orte_util_add_dash_host_nodes nodes ov app.dash_host).2.1
                  (env.orte_util_add_dash_host_nodes nodes ov app.dash_host).2.2 with
                calls := ras_call.add_dash_host_nodes nodes app.dash_host
                    (env.orte_util_add_dash_host_nodes nodes ov app.dash_host).1
                  :: (dash_host_loop env rest
                  (env.orte_util_add_dash_host_nodes nodes ov app.dash_host).2.1
                  (env.orte_util_add_dash_host_nodes nodes ov app.dash_host).2.2).calls } := by
          simp [dash_host_loop, hmap, he]
        rw [hstep] at h ⊢
        simp only [] at h
        have hrec := ih _ _ h
        have hfil : (app :: rest).filter orte_app_context_t.has_dash_host
            = app :: rest.filter orte_app_context_t.has_dash_host := by
          simp [List.filter_cons, orte_app_context_t.has_dash_host, hmap]
        simp only [hfil, List.map_cons, dash_host_union]
        rw [← hrec, h]
      · have hstep : (dash_host_loop env (app :: rest) nodes ov).rc
            = (env.orte_util_add_dash_host_nodes nodes ov app.dash_host).1 := by
          simp [dash_host_loop, hmap, he]
        rw [hstep] at h
        exact absurd h he
    · have hstep : dash_host_loop env (app :: rest) nodes ov
          = dash_host_loop env rest nodes ov := by
        simp [dash_host_loop, hmap]
      rw [hstep] at h ⊢
      rw [ih nodes ov h]
      have hfil : (app :: rest).filter orte_app_context_t.has_dash_host
          = rest.filter orte_app_context_t.has_dash_host := by
        simp [List.filter_cons, orte_app_context_t.has_dash_host, hmap]
      rw [hfil]

theorem hostfile_union_append (env : ras_env) (files : List String) (file : String)
    (nodes : List orte_node_t) (ov : Bool) :
    (hostfile_union env (files ++ [file]) nodes ov).nodes
      = (env.orte_util_add_hostfile_nodes (hostfile_union env files nodes ov).nodes
          (hostfile_union env files nodes ov).override_oversubscribed file).2.1 ∧
    (hostfile_union env (files ++ [file]) nodes ov).override_oversubscribed
      = (env.orte_util_add_hostfile_nodes (hostfile_union env files nodes ov).nodes
          (hostfile_union env files nodes ov).override_oversubscribed file).2.2 := by
  induction files generalizing nodes ov with
  | nil => exact ⟨rfl, rfl⟩
  | cons f rest ih =>
    simp only [List.cons_append, hostfile_union]
    exact ih _ _

theorem dash_host_union_append (env : ras_env) (specs : List (List String))
    (spec : List String) (nodes : List orte_node_t) (ov : Bool) :
    (dash_host_union env (specs ++ [spec]) nodes ov).nodes
      = (env.orte_util_add_dash_host_nodes (dash_host_union env specs nodes ov).nodes
          (dash_host_union env specs nodes ov).override_oversubscribed spec).2.1 ∧
    (dash_host_union env (specs ++ [spec]) nodes ov).override_oversubscribed
      = (env.orte_util_add_dash_host_nodes (dash_host_union env specs nodes ov).nodes
          (dash_host_union env specs nodes ov).override_oversubscribed spec).2.2 := by
  induction specs generalizing nodes ov with
  | nil => exact ⟨rfl, rfl⟩
  | cons f rest ih =>
    simp only [List.cons_append, dash_host_union]
    exact ih _ _

theorem hostfile_loop_no_dash_host (env : ras_env) (apps : List orte_app_context_t)
    (nodes : List orte_node_t) (ov : Bool) :
    (hostfile_loop env apps nodes ov).calls.filter ras_call.is_dash_host = [] := by
  induction apps generalizing nodes ov with
  | nil => rfl
  | cons app rest ih =>
    unfold hostfile_loop
    split
    · exact ih nodes ov
    · simp only []
      split_ifs
      · rfl
      · simp [ras_call.is_dash_host, ih]

theorem default_hostfile_parse_no_dash_host (env : ras_env) (nodes : List orte_node_t)
    (ov : Bool) :
    (default_hostfile_parse env nodes ov).calls.filter ras_call.is_dash_host = [] := by
  unfold default_hostfile_parse
  split <;> rfl

theorem module_query_no_dash_host (env : ras_env) (nodes : List orte_node_t) :
    (module_query env nodes).2.2.filter ras_call.is_dash_host = [] := by
  unfold module_query
  split <;> rfl

theorem hostfile_loop_of_no_hostfile (env : ras_env) (apps : List orte_app_context_t)
    (nodes : List orte_node_t) (ov : Bool) (h : ∀ p ∈ apps, p.hostfile = none) :
    hostfile_loop env apps nodes ov
      = { rc := ORTE_SUCCESS, nodes := nodes, override_oversubscribed := ov, calls := [] } := by
  induction apps with
  | nil => rfl
  | cons app rest ih =>
    have ha : app.hostfile = none := h app (List.mem_cons_self app rest)
    have hstep : hostfile_loop env (app :: rest) nodes ov = hostfile_loop env rest nodes ov := by
      simp [hostfile_loop, ha]
    rw [hstep]
    exact ih (fun p hp => h p (List.mem_cons_of_mem app hp))

theorem dash_host_loop_of_no_dash_host (env : ras_env) (apps : List orte_app_context_t)
    (nodes : List orte_node_t) (ov : Bool) (h : ∀ p ∈ apps, p.has_dash_host = false) :
    dash_host_loop env apps nodes ov
      = { rc := ORTE_SUCCESS, nodes := nodes, override_oversubscribed := ov, calls := [] } := by
  induction apps with
  | nil => rfl
  | cons app rest ih =>
    have ha : ¬ 0 < app.num_map := by
      have := h app (List.mem_cons_self app rest)
      simpa [orte_app_context_t.has_dash_host] using this
    have hstep : dash_host_loop env (app :: rest) nodes ov
        = dash_host_loop env rest nodes ov := by
      simp [dash_host_loop, ha]
    rw [hstep]
    exact ih (fun p hp => h p (List.mem_cons_of_mem app hp))

theorem hostfile_loop_append (env : ras_env) (front rest : List orte_app_context_t)
    (nodes : List orte_node_t) (ov : Bool)
    (h : (hostfile_loop env (front ++ rest) nodes ov).rc = ORTE_SUCCESS) :
    (hostfile_loop env front nodes ov).rc = ORTE_SUCCESS ∧
    (hostfile_loop env (front ++ rest) nodes ov).nodes
      = (hostfile_loop env rest (hostfile_loop env front nodes ov).nodes
          (hostfile_loop env front nodes ov).override_oversubscribed).nodes ∧
    (hostfile_loop env (front ++ rest) nodes ov).override_oversubscribed
      = (hostfile_loop env rest (hostfile_loop env front nodes ov).nodes
          (hostfile_loop env front nodes ov).override_oversubscribed).override_oversubscribed ∧
    (hostfile_loop env (front ++ rest) nodes ov).rc
      = (hostfile_loop env rest (hostfile_loop env front nodes ov).nodes
          (hostfile_loop env front nodes ov).override_oversubscribed).rc := by
  induction front generalizing nodes ov with
  | nil => exact ⟨rfl, rfl, rfl, rfl⟩
  | cons app more ih =>
    cases hf : app.hostfile with
    | none =>
      have h1 : ∀ l, hostfile_loop env (app :: l) nodes ov = hostfile_loop env l nodes ov := by
        intro l
        simp [hostfile_loop, hf]
      rw [List.cons_append, h1] at h ⊢
      rw [h1]
      exact ih nodes ov h
    | some file =>
      by_cases he : (env.orte_util_add_hostfile_nodes nodes ov file).1 = ORTE_SUCCESS
      · have h1 : ∀ l, hostfile_loop env (app :: l) nodes ov
            = { hostfile_loop env l (env.orte_util_add_hostfile_nodes nodes ov file).2.1
                  (env.orte_util_add_hostfile_nodes nodes ov file).2.2 with
                calls := ras_call.add_hostfile_nodes nodes file
                    (env.orte_util_add_hostfile_nodes nodes ov file).1
                  :: (hostfile_loop env l (env.orte_util_add_hostfile_nodes nodes ov file).2.1
                  (env.orte_util_add_hostfile_nodes nodes ov file).2.2).calls } := by
          intro l
          simp [hostfile_loop, hf, he]
        rw [List.cons_append, h1] at h ⊢
        rw [h1]
        exact ih _ _ h
      · have h1 : (hostfile_loop env (app :: (more ++ rest)) nodes ov).rc
            = (env.orte_util_add_hostfile_nodes nodes ov file).1 := by
          simp [hostfile_loop, hf, he]
        rw [List.cons_append, h1] at h
        exact absurd h he

theorem dash_host_loop_append (env : ras_env) (front rest : List orte_app_context_t)
    (nodes : List orte_node_t) (ov : Bool)
    (h : (dash_host_loop env (front ++ rest) nodes ov).rc = ORTE_SUCCESS) :
    (dash_host_loop env front nodes ov).rc = ORTE_SUCCESS ∧
    (dash_host_loop env (front ++ rest) nodes ov).nodes
      = (dash_host_loop env rest (dash_host_loop env front nodes ov).nodes
          (dash_host_loop env front nodes ov).override_oversubscribed).nodes ∧
    (dash_host_loop env (front ++ rest) nodes ov).override_oversubscribed
      = (dash_host_loop env rest (dash_host_loop env front nodes ov).nodes
          (dash_host_loop env front nodes ov).override_oversubscribed).override_oversubscribed ∧
    (dash_host_loop env (front ++ rest) nodes ov).rc
      = (dash_host_loop env rest (dash_host_loop env front nodes ov).nodes
          (dash_host_loop env front nodes ov).override_oversubscribed).rc := by
  induction front generalizing nodes ov with
  | nil => exact ⟨rfl, rfl, rfl, rfl⟩
  | cons app more ih =>
    by_cases hmap : 0 < app.num_map
    · by_cases he :
          (env.orte_util_add_dash_host_nodes nodes ov app.dash_host).1 = ORTE_SUCCESS
      · have h1 : ∀ l, dash_host_loop env (app :: l) nodes ov
            = { dash_host_loop env l
                  (env.orte_util_add_dash_host_nodes nodes ov app.dash_host).2.1
                  (env.orte_util_add_dash_host_nodes nodes ov app.dash_host).2.2 with
                calls := ras_call.add_dash_host_nodes nodes app.dash_host
                    (env.orte_util_add_dash_host_nodes nodes ov app.dash_host).1
                  :: (dash_host_loop env l
                  (env.orte_util_add_dash_host_nodes nodes ov app.dash_host).2.1
                  (env.orte_util_add_dash_host_nodes nodes ov app.dash_host).2.2).calls } := by
          intro l
          simp [dash_host_loop, hmap, he]
        rw [List.cons_append, h1] at h ⊢
        rw [h1]
        exact ih _ _ h
      · have h1 : (dash_host_loop env (app :: (more ++ rest)) nodes ov).rc
            = (env.orte_util_add_dash_host_nodes nodes ov app.dash_host).1 := by
          simp [dash_host_loop, hmap, he]
        rw [List.cons_append, h1] at h
        exact absurd h he
    · have h1 : ∀ l, dash_host_loop env (app :: l) nodes ov
          = dash_host_loop env l nodes ov := by
        intro l
        simp [dash_host_loop, hmap]
      rw [List.cons_append, h1] at h ⊢
      rw [h1]
      exact ih nodes ov h

/-- A list has a last element that passes a test, unless no element passes. -/
theorem last_passing {α : Type} (p : α → Bool) (l : List α) :
    (∀ x ∈ l, p x = false) ∨
    ∃ front x back, l = front ++ x :: back ∧ p x = true ∧ ∀ y ∈ back, p y = false := by
  induction l with
  | nil => exact Or.inl (fun x hx => by cases hx)
  | cons a rest ih =>
    rcases ih with h | ⟨front, x, back, hl, hx, hb⟩
    · cases ha : p a with
      | false =>
        refine Or.inl (fun y hy => ?_)
        rcases List.mem_cons.mp hy with h1 | h1
        · rw [h1]; exact ha
        · exact h y h1
      | true => exact Or.inr ⟨[], a, rest, rfl, ha, h⟩
    · exact Or.inr ⟨a :: front, x, back, by rw [hl]; rfl, hx, hb⟩

theorem hostfile_loop_last (env : ras_env) (front back : List orte_app_context_t)
    (app : orte_app_context_t) (file : String) (nodes : List orte_node_t) (ov : Bool)
    (hf : app.hostfile = some file) (hb : ∀ p ∈ back, p.hostfile = none)
    (h : (hostfile_loop env (front ++ app :: back) nodes ov).rc = ORTE_SUCCESS) :
    (hostfile_loop env front nodes ov).rc = ORTE_SUCCESS ∧
    (hostfile_loop env (front ++ app :: back) nodes ov).nodes
      = (env.orte_util_add_hostfile_nodes (hostfile_loop env front nodes ov).nodes
          (hostfile_loop env front nodes ov).override_oversubscribed file).2.1 ∧
    (hostfile_loop env (front ++ app :: back) nodes ov).override_oversubscribed
      = (env.orte_util_add_hostfile_nodes (hostfile_loop env front nodes ov).nodes
          (hostfile_loop env front nodes ov).override_oversubscribed file).2.2 := by
  obtain ⟨h1, h2, h3, h4⟩ := hostfile_loop_append env front (app :: back) nodes ov h
  rw [h4] at h
  rw [h2, h3]
  generalize (hostfile_loop env front nodes ov).nodes = n at h ⊢
  generalize (hostfile_loop env front nodes ov).override_oversubscribed = o at h ⊢
  by_cases he : (env.orte_util_add_hostfile_nodes n o file).1 = ORTE_SUCCESS
  · have hstep : hostfile_loop env (app :: back) n o
        = { hostfile_loop env back (env.orte_util_add_hostfile_nodes n o file).2.1
              (env.orte_util_add_hostfile_nodes n o file).2.2 with
            calls := ras_call.add_hostfile_nodes n file
                (env.orte_util_add_hostfile_nodes n o file).1
              :: (hostfile_loop env back (env.orte_util_add_hostfile_nodes n o file).2.1
              (env.orte_util_add_hostfile_nodes n o file).2.2).calls } := by
      simp [hostfile_loop, hf, he]
    rw [hstep, hostfile_loop_of_no_hostfile env back _ _ hb]
    exact ⟨h1, rfl, rfl⟩
  · have hstep : (hostfile_loop env (app :: back) n o).rc
        = (env.orte_util_add_hostfile_nodes n o file).1 := by
      simp [hostfile_loop, hf, he]
    rw [hstep] at h
    exact absurd h he

theorem dash_host_loop_last (env : ras_env) (front back : List orte_app_context_t)
    (app : orte_app_context_t) (nodes : List orte_node_t) (ov : Bool)
    (hf : app.has_dash_host = true) (hb : ∀ p ∈ back, p.has_dash_host = false)
    (h : (dash_host_loop env (front ++ app :: back) nodes ov).rc = ORTE_SUCCESS) :
    (dash_host_loop env front nodes ov).rc = ORTE_SUCCESS ∧
    (dash_host_loop env (front ++ app :: back) nodes ov).nodes
      = (env.orte_util_add_dash_host_nodes (dash_host_loop env front nodes ov).nodes
          (dash_host_loop env front nodes ov).override_oversubscribed app.dash_host).2.1 ∧
    (dash_host_loop env (front ++ app :: back) nodes ov).override_oversubscribed
      = (env.orte_util_add_dash_host_nodes (dash_host_loop env front nodes ov).nodes
          (dash_host_loop env front nodes ov).override_oversubscribed app.dash_host).2.2 := by
  have hmap : 0 < app.num_map := by
    simpa [orte_app_context_t.has_dash_host] using hf
  obtain ⟨h1, h2, h3, h4⟩ := dash_host_loop_append env front (app :: back) nodes ov h
  rw [h4] at h
  rw [h2, h3]
  generalize (dash_host_loop env front nodes ov).nodes = n at h ⊢
  generalize (dash_host_loop env front nodes ov).override_oversubscribed = o at h ⊢
  by_cases he : (env.orte_util_add_dash_host_nodes n o app.dash_host).1 = ORTE_SUCCESS
  · have hstep : dash_host_loop env (app :: back) n o
        = { dash_host_loop env back (env.orte_util_add_dash_host_nodes n o app.dash_host).2.1
              (env.orte_util_add_dash_host_nodes n o app.dash_host).2.2 with
            calls := ras_call.add_dash_host_nodes n app.dash_host
                (env.orte_util_add_dash_host_nodes n o app.dash_host).1
              :: (dash_host_loop env back
              (env.orte_util_add_dash_host_nodes n o app.dash_host).2.1
              (env.orte_util_add_dash_host_nodes n o app.dash_host).2.2).calls } := by
      simp [dash_host_loop, hmap, he]
    rw [hstep, dash_host_loop_of_no_dash_host env back _ _ hb]
    exact ⟨h1, rfl, rfl⟩
  · have hstep : (dash_host_loop env (app :: back) n o).rc
        = (env.orte_util_add_dash_host_nodes n o app.dash_host).1 := by
      simp [dash_host_loop, hmap, he]
    rw [hstep] at h
    exact absurd h he

theorem app_hostfiles_step_eq_union (env : ras_env) (jdata : orte_job_t)
    (hd : (default_hostfile_step env).nothing)
    (hs : (app_hostfiles_step env jdata).rc = ORTE_SUCCESS) :
    app_hostfiles_step env jdata
      = hostfile_union env (jdata.apps.filterMap fun app => app.hostfile) []
          (default_hostfile_step env).override_oversubscribed := by
  unfold app_hostfiles_step at hs ⊢
  rw [hostfile_loop_eq_union env _ _ _ hs, hd.2]

theorem dash_host_step_eq_union (env : ras_env) (jdata : orte_job_t)
    (ha : (app_hostfiles_step env jdata).nothing)
    (hs : (dash_host_step env jdata).rc = ORTE_SUCCESS) :
    dash_host_step env jdata
      = dash_host_union env
          ((jdata.apps.filter orte_app_context_t.has_dash_host).map fun app => app.dash_host)
          [] (app_hostfiles_step env jdata).override_oversubscribed := by
  unfold dash_host_step at hs ⊢
  rw [dash_host_loop_eq_union env _ _ _ hs, ha.2]

theorem dash_host_loop_all_dash_host (env : ras_env) (apps : List orte_app_context_t)
    (nodes : List orte_node_t) (ov : Bool) :
    (dash_host_loop env apps nodes ov).calls.filter ras_call.is_dash_host
      = (dash_host_loop env apps nodes ov).calls := by
  induction apps generalizing nodes ov with
  | nil => rfl
  | cons app rest ih =>
    unfold dash_host_loop
    split_ifs
    · simp only []
      split_ifs
      · rfl
      · simp [ras_call.is_dash_host, ih]
    · exact ih nodes ov

theorem local_fallback_no_dash_host (env : ras_env) (st : ras_state) (jdata : orte_job_t)
    (nodes : List orte_node_t) :
    (local_fallback env st jdata nodes).calls.filter ras_call.is_dash_host = [] := by
  cases hobj : env.obj_new_node with
  | false => simp [local_fallback, hobj]
  | true =>
    rw [local_fallback_of_node env st jdata nodes hobj]
    rfl

/-- The dash-host parser calls of a first call that reaches the dash-host loop
and whose loop ends without error are the calls of that loop. -/
theorem dash_host_calls_of_reached (env : ras_env) (st : ras_state) (jdata : orte_job_t)
    (hl : st.allocation_read = false)
    (hm : module_finds_nothing env)
    (hd : (default_hostfile_step env).nothing)
    (ha : (app_hostfiles_step env jdata).nothing)
    (hs : (dash_host_step env jdata).rc = ORTE_SUCCESS) :
    (orte_ras_base_allocate env st jdata).calls.filter ras_call.is_dash_host
      = (dash_host_step env jdata).calls := by
  have k1 := module_query_no_dash_host env []
  have k2 : (default_hostfile_step env).calls.filter ras_call.is_dash_host = [] :=
    default_hostfile_parse_no_dash_host env [] env.override_uninit
  have k3 : (app_hostfiles_step env jdata).calls.filter ras_call.is_dash_host = [] :=
    hostfile_loop_no_dash_host env jdata.apps _ _
  have k4 : (dash_host_step env jdata).calls.filter ras_call.is_dash_host
      = (dash_host_step env jdata).calls :=
    dash_host_loop_all_dash_host env jdata.apps _ _
  by_cases hn : (dash_host_step env jdata).nodes = []
  · rw [allocate_of_nothing_found env st jdata hl hm hd ha ⟨hs, hn⟩]
    simp [k1, k2, k3, k4, local_fallback_no_dash_host]
  · rw [allocate_of_dash_host_nodes env st jdata hl hm hd ha hs hn]
    simp [store_with_override, k1, k2, k3, k4, ras_call.is_dash_host]

theorem not_is_insert_of_quiet {cs : List ras_call} (h : quiet cs) :
    ∀ c ∈ cs, c.is_insert = false := by
  intro c hc
  have := (h c hc).1
  cases c <;> simp_all [ras_call.is_insert, ras_call.is_discovery]

theorem not_is_insert_of_is_discovery {c : ras_call} (h : c.is_discovery = true) :
    c.is_insert = false := by
  cases c <;> simp_all [ras_call.is_insert, ras_call.is_discovery]

/-! ## Facts about the steps: what depends on the module -/

theorem hostfile_loop_without_module (env : ras_env)
    (m : Option (List orte_node_t → Int × List orte_node_t))
    (apps : List orte_app_context_t) (nodes : List orte_node_t) (ov : Bool) :
    hostfile_loop { env with active_module := m } apps nodes ov
      = hostfile_loop env apps nodes ov := by
  induction apps generalizing nodes ov with
  | nil => rfl
  | cons app rest ih =>
    unfold hostfile_loop
    simp only [ih]

theorem dash_host_loop_without_module (env : ras_env)
    (m : Option (List orte_node_t → Int × List orte_node_t))
    (apps : List orte_app_context_t) (nodes : List orte_node_t) (ov : Bool) :
    dash_host_loop { env with active_module := m } apps nodes ov
      = dash_host_loop env apps nodes ov := by
  induction apps generalizing nodes ov with
  | nil => rfl
  | cons app rest ih =>
    unfold dash_host_loop
    simp only [ih]

theorem from_dash_host_without_module (env : ras_env)
    (m : Option (List orte_node_t → Int × List orte_node_t))
    (st : ras_state) (jdata : orte_job_t) (nodes : List orte_node_t) (ov : Bool) :
    from_dash_host { env with active_module := m } st jdata nodes ov
      = from_dash_host env st jdata nodes ov := by
  unfold from_dash_host
  rw [dash_host_loop_without_module]
  rfl

theorem from_app_hostfiles_without_module (env : ras_env)
    (m : Option (List orte_node_t → Int × List orte_node_t))
    (st : ras_state) (jdata : orte_job_t) (nodes : List orte_node_t) (ov : Bool) :
    from_app_hostfiles { env with active_module := m } st jdata nodes ov
      = from_app_hostfiles env st jdata nodes ov := by
  unfold from_app_hostfiles
  rw [hostfile_loop_without_module]
  simp only [from_dash_host_without_module]
  rfl

theorem from_default_hostfile_without_module (env : ras_env)
    (m : Option (List orte_node_t → Int × List orte_node_t))
    (st : ras_state) (jdata : orte_job_t) (nodes : List orte_node_t) :
    from_default_hostfile { env with active_module := m } st jdata nodes
      = from_default_hostfile env st jdata nodes := by
  unfold from_default_hostfile after_default_hostfile
  simp only [from_app_hostfiles_without_module]
  rfl

/-! ## The latch -/

/-- C1: when the latch `allocation_read` is already set, the call returns
success, makes no collaborator call at all (no module query, no parse, no
insert) and leaves the process state (latch and node pool) and the job
(its override flag included) exactly as they were. -/
theorem allocate_latched_noop (env : ras_env) (st : ras_state) (jdata : orte_job_t)
    (h : st.allocation_read = true) :
    (orte_ras_base_allocate env st jdata).rc = ORTE_SUCCESS ∧
    (orte_ras_base_allocate env st jdata).calls = [] ∧
    (orte_ras_base_allocate env st jdata).st = st ∧
    (orte_ras_base_allocate env st jdata).jdata = jdata := by
  rw [allocate_of_latched env st jdata h]
  exact ⟨rfl, rfl, rfl, rfl⟩

/-- Instance of C1: a latched state with a one-node pool, a module that would
find a node, a job with the flag cleared. -/
theorem allocate_latched_noop_witness :
    (⟨true, [sample_node "n1" 1]⟩ : ras_state).allocation_read = true ∧
    (orte_ras_base_allocate { sample_env with active_module := some sample_module }
        ⟨true, [sample_node "n1" 1]⟩ (sample_job false)).rc = ORTE_SUCCESS ∧
    (orte_ras_base_allocate { sample_env with active_module := some sample_module }
        ⟨true, [sample_node "n1" 1]⟩ (sample_job false)).calls = [] ∧
    (orte_ras_base_allocate { sample_env with active_module := some sample_module }
        ⟨true, [sample_node "n1" 1]⟩ (sample_job false)).st = ⟨true, [sample_node "n1" 1]⟩ ∧
    (orte_ras_base_allocate { sample_env with active_module := some sample_module }
        ⟨true, [sample_node "n1" 1]⟩ (sample_job false)).jdata = sample_job false :=
  ⟨rfl, allocate_latched_noop _ _ _ rfl⟩

/-- C2: after any call the latch is set, also when the call returns an error;
so every later call, with any collaborators and any job, returns success with
an empty trace (no discovery source is invoked, the insert is not called) and
leaves the node pool and the job as they are. -/
theorem latch_set_after_any_call (env : ras_env) (st : ras_state) (jdata : orte_job_t) :
    (orte_ras_base_allocate env st jdata).st.allocation_read = true ∧
    ∀ (env2 : ras_env) (jdata2 : orte_job_t),
      (orte_ras_base_allocate env2 (orte_ras_base_allocate env st jdata).st jdata2).rc
        = ORTE_SUCCESS ∧
      (orte_ras_base_allocate env2 (orte_ras_base_allocate env st jdata).st jdata2).calls
        = [] ∧
      (orte_ras_base_allocate env2 (orte_ras_base_allocate env st jdata).st jdata2).st
        = (orte_ras_base_allocate env st jdata).st ∧
      (orte_ras_base_allocate env2 (orte_ras_base_allocate env st jdata).st jdata2).jdata
        = jdata2 := by
  have hl : (orte_ras_base_allocate env st jdata).st.allocation_read = true :=
    allocate_sets_latch env st jdata
  refine ⟨hl, fun env2 jdata2 => ?_⟩
  rw [allocate_of_latched env2 _ jdata2 hl]
  exact ⟨rfl, rfl, rfl, rfl⟩

/-! ## The managed module -/

/-- C3: on a first call (latch clear) with a module configured whose allocate
returns a status other than success, the call returns exactly that status, the
only collaborator call made is the module query (so the insert is not called
and no default hostfile, per-app hostfile or dash-host is parsed), and the node
pool is unchanged. -/
theorem module_error_aborts (env : ras_env) (st : ras_state) (jdata : orte_job_t)
    (allocate : List orte_node_t → Int × List orte_node_t)
    (hl : st.allocation_read = false)
    (hm : env.active_module = some allocate)
    (he : (allocate []).1 ≠ ORTE_SUCCESS) :
    (orte_ras_base_allocate env st jdata).rc = (allocate []).1 ∧
    (orte_ras_base_allocate env st jdata).calls
      = [ras_call.module_allocate (allocate []).1] ∧
    (∀ c ∈ (orte_ras_base_allocate env st jdata).calls,
      c.is_insert = false ∧ c.is_parse = false) ∧
    (orte_ras_base_allocate env st jdata).st.orte_node_pool = st.orte_node_pool := by
  rw [allocate_of_unlatched env st jdata hl, from_module_of_error env _ jdata allocate hm he]
  simp [ras_call.is_insert, ras_call.is_parse]

/-- Instance of C3: a module failing with status 7 in front of a default
hostfile that would give a node. -/
theorem module_error_aborts_witness :
    (⟨false, []⟩ : ras_state).allocation_read = false ∧
    (sample_failing_module []).1 ≠ ORTE_SUCCESS ∧
    (orte_ras_base_allocate
        { sample_env with active_module := some sample_failing_module,
                          orte_default_hostfile := some "hosts",
                          orte_util_add_hostfile_nodes := sample_hostfile_reader false }
        ⟨false, []⟩ (sample_job true)).rc = 7 ∧
    (orte_ras_base_allocate
        { sample_env with active_module := some sample_failing_module,
                          orte_default_hostfile := some "hosts",
                          orte_util_add_hostfile_nodes := sample_hostfile_reader false }
        ⟨false, []⟩ (sample_job true)).st.orte_node_pool = [] :=
  ⟨rfl, by decide,
    (module_error_aborts
      { sample_env with active_module := some sample_failing_module,
                        orte_default_hostfile := some "hosts",
                        orte_util_add_hostfile_nodes := sample_hostfile_reader false }
      ⟨false, []⟩ (sample_job true) sample_failing_module rfl rfl (by decide)).1,
    (module_error_aborts
      { sample_env with active_module := some sample_failing_module,
                        orte_default_hostfile := some "hosts",
                        orte_util_add_hostfile_nodes := sample_hostfile_reader false }
      ⟨false, []⟩ (sample_job true) sample_failing_module rfl rfl (by decide)).2.2.2⟩

/-- C4: on a first call where the module succeeds with a non-empty list, the
trace is the module query followed by one insert of exactly the module's list
(so no hostfile or dash-host parser runs, whatever default hostfile is
configured), the status returned is the status of that insert, and the node
pool is the one the insert leaves. -/
theorem module_nodes_are_stored (env : ras_env) (st : ras_state) (jdata : orte_job_t)
    (allocate : List orte_node_t → Int × List orte_node_t)
    (hl : st.allocation_read = false)
    (hm : env.active_module = some allocate)
    (hs : (allocate []).1 = ORTE_SUCCESS)
    (hn : (allocate []).2 ≠ []) :
    (orte_ras_base_allocate env st jdata).calls
      = [ras_call.module_allocate ORTE_SUCCESS,
         ras_call.node_insert (allocate []).2 jdata
          (env.orte_ras_base_node_insert st.orte_node_pool (allocate []).2 jdata).1] ∧
    ((orte_ras_base_allocate env st jdata).calls.filter ras_call.is_insert).length = 1 ∧
    (orte_ras_base_allocate env st jdata).calls.filter ras_call.is_parse = [] ∧
    (orte_ras_base_allocate env st jdata).rc
      = (env.orte_ras_base_node_insert st.orte_node_pool (allocate []).2 jdata).1 ∧
    (orte_ras_base_allocate env st jdata).st.orte_node_pool
      = (env.orte_ras_base_node_insert st.orte_node_pool (allocate []).2 jdata).2 := by
  rw [allocate_of_unlatched env st jdata hl,
    from_module_of_nodes env _ jdata allocate hm hs hn]
  simp [ras_call.is_insert, ras_call.is_parse]

/-- Instance of C4: the module finds "m0" while a default hostfile that would
give "h0" is configured; only "m0" reaches the pool. -/
theorem module_nodes_are_stored_witness :
    (⟨false, []⟩ : ras_state).allocation_read = false ∧
    (sample_module []).1 = ORTE_SUCCESS ∧ (sample_module []).2 ≠ [] ∧
    (orte_ras_base_allocate
        { sample_env with active_module := some sample_module,
                          orte_default_hostfile := some "hosts",
                          orte_util_add_hostfile_nodes := sample_hostfile_reader false }
        ⟨false, []⟩ (sample_job true)).st.orte_node_pool = [sample_node "m0" 4] :=
  ⟨rfl, rfl, by simp [sample_module],
    (module_nodes_are_stored
      { sample_env with active_module := some sample_module,
                        orte_default_hostfile := some "hosts",
                        orte_util_add_hostfile_nodes := sample_hostfile_reader false }
      ⟨false, []⟩ (sample_job true) sample_module rfl rfl rfl
      (by simp [sample_module])).2.2.2.2⟩

/-- C5: a call that ends in the module step (the module returns an error, or
it returns a non-empty list, whatever the insert then returns) does not write
the job: the override flag after the call is the one the caller had set. -/
theorem module_path_keeps_flag (env : ras_env) (st : ras_state) (jdata : orte_job_t)
    (allocate : List orte_node_t → Int × List orte_node_t)
    (hm : env.active_module = some allocate)
    (hend : (allocate []).1 ≠ ORTE_SUCCESS ∨ (allocate []).2 ≠ []) :
    (orte_ras_base_allocate env st jdata).jdata.oversubscribe_override
      = jdata.oversubscribe_override := by
  cases hl : st.allocation_read with
  | true => rw [allocate_of_latched env st jdata hl]
  | false =>
    rw [allocate_of_unlatched env st jdata hl]
    by_cases he : (allocate []).1 = ORTE_SUCCESS
    · rcases hend with h | h
      · exact absurd he h
      · rw [from_module_of_nodes env _ jdata allocate hm he h]
    · rw [from_module_of_error env _ jdata allocate hm he]

/-- Instance of C5: the module finds "m0", the insert fails with status 9, and
the flag the caller had cleared is still clear. -/
theorem module_path_keeps_flag_witness :
    ((sample_module []).1 ≠ ORTE_SUCCESS ∨ (sample_module []).2 ≠ []) ∧
    (orte_ras_base_allocate
        { sample_env with active_module := some sample_module,
                          orte_ras_base_node_insert := fun pool _ _ => (9, pool) }
        ⟨false, []⟩ (sample_job false)).jdata.oversubscribe_override = false :=
  ⟨Or.inr (by simp [sample_module]),
    module_path_keeps_flag
      { sample_env with active_module := some sample_module,
                        orte_ras_base_node_insert := fun pool _ _ => (9, pool) }
      ⟨false, []⟩ (sample_job false) sample_module rfl (Or.inr (by simp [sample_module]))⟩

/-! ## The default hostfile -/

/-- C6: on a first call where the module step yields nothing (no module, or an
empty list without error) and the configured default hostfile parses without
error to a non-empty list `nodes` with hint `hint`: the trace is the module
query (if any), the one parse of the default hostfile, and one insert of
exactly `nodes`; no other parser call is made; the override flag of the job
becomes `hint`, whatever it was; the status returned is that of the insert. -/
theorem default_hostfile_nodes_are_stored (env : ras_env) (st : ras_state)
    (jdata : orte_job_t) (file : String) (nodes : List orte_node_t) (hint : Bool)
    (hl : st.allocation_read = false)
    (hm : module_finds_nothing env)
    (hf : env.orte_default_hostfile = some file)
    (hp : env.orte_util_add_hostfile_nodes [] env.override_uninit file
            = (ORTE_SUCCESS, nodes, hint))
    (hn : nodes ≠ []) :
    (orte_ras_base_allocate env st jdata).calls
      = (module_query env []).2.2 ++
        [ras_call.add_hostfile_nodes [] file ORTE_SUCCESS,
         ras_call.node_insert nodes jdata
          (env.orte_ras_base_node_insert st.orte_node_pool nodes jdata).1] ∧
    (orte_ras_base_allocate env st jdata).calls.filter ras_call.is_insert
      = [ras_call.node_insert nodes jdata
          (env.orte_ras_base_node_insert st.orte_node_pool nodes jdata).1] ∧
    (orte_ras_base_allocate env st jdata).calls.filter ras_call.is_parse
      = [ras_call.add_hostfile_nodes [] file ORTE_SUCCESS] ∧
    (orte_ras_base_allocate env st jdata).jdata.oversubscribe_override = hint ∧
    (orte_ras_base_allocate env st jdata).rc
      = (env.orte_ras_base_node_insert st.orte_node_pool nodes jdata).1 ∧
    (orte_ras_base_allocate env st jdata).st.orte_node_pool
      = (env.orte_ras_base_node_insert st.orte_node_pool nodes jdata).2 := by
  have hq := module_query_of_nothing env hm
  have hd : default_hostfile_parse env [] env.override_uninit
      = { rc := ORTE_SUCCESS, nodes := nodes, override_oversubscribed := hint,
          calls := [ras_call.add_hostfile_nodes [] file ORTE_SUCCESS] } := by
    simp [default_hostfile_parse, hf, hp]
  rw [allocate_of_unlatched env st jdata hl, from_module_of_nothing env _ jdata hm,
    from_default_hostfile_of_nodes env _ jdata (by rw [hd]) (by rw [hd]; exact hn), hd]
  simp [store_with_override, hq.2.2.1, hq.2.2.2, ras_call.is_insert, ras_call.is_parse]

/-- Instance of C6: no module, a default hostfile giving "h0" with hint false,
a job whose flag the caller had set and which also names a per-app hostfile
and a dash-host: the flag ends up false. -/
theorem default_hostfile_nodes_are_stored_witness :
    (orte_ras_base_allocate
        { sample_env with orte_default_hostfile := some "hosts",
                          orte_util_add_hostfile_nodes := sample_hostfile_reader false }
        ⟨false, []⟩
        { apps := [{ hostfile := some "apphosts", num_map := 1, dash_host := ["d0"] }],
          oversubscribe_override := true }).jdata.oversubscribe_override = false ∧
    (orte_ras_base_allocate
        { sample_env with orte_default_hostfile := some "hosts",
                          orte_util_add_hostfile_nodes := sample_hostfile_reader false }
        ⟨false, []⟩
        { apps := [{ hostfile := some "apphosts", num_map := 1, dash_host := ["d0"] }],
          oversubscribe_override := true }).calls.filter ras_call.is_parse
      = [ras_call.add_hostfile_nodes [] "hosts" ORTE_SUCCESS] :=
  ⟨(default_hostfile_nodes_are_stored
      { sample_env with orte_default_hostfile := some "hosts",
                        orte_util_add_hostfile_nodes := sample_hostfile_reader false }
      ⟨false, []⟩
      { apps := [{ hostfile := some "apphosts", num_map := 1, dash_host := ["d0"] }],
        oversubscribe_override := true }
      "hosts" [sample_node "h0" 2] false rfl (by simp [module_finds_nothing, sample_env])
      rfl rfl (by simp)).2.2.2.1,
   (default_hostfile_nodes_are_stored
      { sample_env with orte_default_hostfile := some "hosts",
                        orte_util_add_hostfile_nodes := sample_hostfile_reader false }
      ⟨false, []⟩
      { apps := [{ hostfile := some "apphosts", num_map := 1, dash_host := ["d0"] }],
        oversubscribe_override := true }
      "hosts" [sample_node "h0" 2] false rfl (by simp [module_finds_nothing, sample_env])
      rfl rfl (by simp)).2.2.1⟩

/-! ## The local fallback -/

/-- C7, the claim as stated fails: with no module, no default hostfile, no
per-app hostfile and no dash-host (every earlier source yields no node, without
error) but a node object that cannot be constructed, the call returns
`ORTE_ERR_OUT_OF_RESOURCE` before the flag is written: the insert is not
called and the override flag the caller had cleared is still clear. -/
theorem local_fallback_flag_not_set_without_node :
    (⟨false, []⟩ : ras_state).allocation_read = false ∧
    module_finds_nothing { sample_env with obj_new_node := false } ∧
    (default_hostfile_step { sample_env with obj_new_node := false }).nothing ∧
    (app_hostfiles_step { sample_env with obj_new_node := false } (sample_job false)).nothing ∧
    (dash_host_step { sample_env with obj_new_node := false } (sample_job false)).nothing ∧
    (orte_ras_base_allocate { sample_env with obj_new_node := false } ⟨false, []⟩
      (sample_job false)).jdata.oversubscribe_override = false ∧
    (orte_ras_base_allocate { sample_env with obj_new_node := false } ⟨false, []⟩
      (sample_job false)).calls = [] ∧
    (orte_ras_base_allocate { sample_env with obj_new_node := false } ⟨false, []⟩
      (sample_job false)).rc = ORTE_ERR_OUT_OF_RESOURCE := by
  refine ⟨rfl, trivial, ⟨rfl, rfl⟩, ⟨rfl, rfl⟩, ⟨rfl, rfl⟩, rfl, rfl, rfl⟩

/-- C7, amended: on a first call where every earlier source yields no node
without error (module step, default hostfile step, per-app hostfile loop,
dash-host loop) and the node object can be constructed, the insert is called
once, with a list of exactly one node whose name is the local nodename, state
UP, slots 1, slots_max 0, slots_inuse 0, and the override flag of the job is
true afterwards (and already when the insert is called), whatever its value
before; the status returned is that of the insert. -/
theorem local_fallback_inserts_local_node (env : ras_env) (st : ras_state)
    (jdata : orte_job_t)
    (hl : st.allocation_read = false)
    (hm : module_finds_nothing env)
    (hd : (default_hostfile_step env).nothing)
    (ha : (app_hostfiles_step env jdata).nothing)
    (hh : (dash_host_step env jdata).nothing)
    (hobj : env.obj_new_node = true) :
    (orte_ras_base_allocate env st jdata).calls.filter ras_call.is_insert
      = [ras_call.node_insert
          [{ name := env.nodename, state := orte_node_state_t.UP, slots_inuse := 0,
             slots_max := 0, slots := 1 }]
          { jdata with oversubscribe_override := true }
          (env.orte_ras_base_node_insert st.orte_node_pool
            [{ name := env.nodename, state := orte_node_state_t.UP, slots_inuse := 0,
               slots_max := 0, slots := 1 }]
            { jdata with oversubscribe_override := true }).1] ∧
    (orte_ras_base_allocate env st jdata).jdata.oversubscribe_override = true ∧
    (orte_ras_base_allocate env st jdata).rc
      = (env.orte_ras_base_node_insert st.orte_node_pool
            [{ name := env.nodename, state := orte_node_state_t.UP, slots_inuse := 0,
               slots_max := 0, slots := 1 }]
            { jdata with oversubscribe_override := true }).1 ∧
    (orte_ras_base_allocate env st jdata).st.orte_node_pool
      = (env.orte_ras_base_node_insert st.orte_node_pool
            [{ name := env.nodename, state := orte_node_state_t.UP, slots_inuse := 0,
               slots_max := 0, slots := 1 }]
            { jdata with oversubscribe_override := true }).2 := by
  rw [allocate_of_nothing_found env st jdata hl hm hd ha hh,
    local_fallback_of_node env _ jdata [] hobj]
  have h1 := module_query_no_insert env []
  have h2 : (default_hostfile_step env).calls.filter ras_call.is_insert = [] :=
    default_hostfile_parse_no_insert env [] env.override_uninit
  have h3 : (app_hostfiles_step env jdata).calls.filter ras_call.is_insert = [] :=
    hostfile_loop_no_insert env jdata.apps _ _
  have h4 : (dash_host_step env jdata).calls.filter ras_call.is_insert = [] :=
    dash_host_loop_no_insert env jdata.apps _ _
  simp [h1, h2, h3, h4, local_node, ras_call.is_insert]

/-- Instance of C7 amended: nothing configured at all and a flag the caller
had cleared; the pool gets the one local node "hnp" and the flag is set. -/
theorem local_fallback_inserts_local_node_witness :
    module_finds_nothing sample_env ∧
    (default_hostfile_step sample_env).nothing ∧
    (app_hostfiles_step sample_env (sample_job false)).nothing ∧
    (dash_host_step sample_env (sample_job false)).nothing ∧
    (orte_ras_base_allocate sample_env ⟨false, []⟩
      (sample_job false)).jdata.oversubscribe_override = true ∧
    (orte_ras_base_allocate sample_env ⟨false, []⟩ (sample_job false)).st.orte_node_pool
      = [{ name := "hnp", state := orte_node_state_t.UP, slots_inuse := 0, slots_max := 0,
           slots := 1 }] :=
  ⟨trivial, ⟨rfl, rfl⟩, ⟨rfl, rfl⟩, ⟨rfl, rfl⟩,
    (local_fallback_inserts_local_node sample_env ⟨false, []⟩ (sample_job false) rfl
      trivial ⟨rfl, rfl⟩ ⟨rfl, rfl⟩ ⟨rfl, rfl⟩ rfl).2.1,
    (local_fallback_inserts_local_node sample_env ⟨false, []⟩ (sample_job false) rfl
      trivial ⟨rfl, rfl⟩ ⟨rfl, rfl⟩ ⟨rfl, rfl⟩ rfl).2.2.2⟩

/-! ## Parser errors -/

/-- C8: on a first call, if a parser call in the trace (the parse of the default
hostfile, of a per-app hostfile or of a dash-host) returned an error,
then the call returns exactly that status, that parser call is the last
collaborator call made (no later parser runs) and every call before it
succeeded, the insert is not called (so nothing gathered so far is stored and
the node pool is unchanged), and the job, its override flag included, is as the
caller passed it. -/
theorem parser_error_aborts (env : ras_env) (st : ras_state) (jdata : orte_job_t)
    (c : ras_call)
    (hl : st.allocation_read = false)
    (hc : c ∈ (orte_ras_base_allocate env st jdata).calls)
    (hp : c.is_parse = true)
    (he : c.status ≠ ORTE_SUCCESS) :
    (orte_ras_base_allocate env st jdata).rc = c.status ∧
    (∃ before, (orte_ras_base_allocate env st jdata).calls = before ++ [c] ∧
      ∀ d ∈ before, d.status = ORTE_SUCCESS) ∧
    (orte_ras_base_allocate env st jdata).calls.filter ras_call.is_insert = [] ∧
    (orte_ras_base_allocate env st jdata).jdata.oversubscribe_override
      = jdata.oversubscribe_override ∧
    (orte_ras_base_allocate env st jdata).jdata = jdata ∧
    (orte_ras_base_allocate env st jdata).st.orte_node_pool = st.orte_node_pool := by
  rcases allocate_ended env st jdata hl with h | h | h
  · obtain ⟨before, c2, hcalls, hb, hd, hs, hrc, hj, hst⟩ := h
    rw [hcalls] at hc
    have hcc : c = c2 := by
      rcases List.mem_append.mp hc with hm | hm
      · exact absurd (hb c hm).2 he
      · simpa using hm
    subst hcc
    refine ⟨hrc, ⟨before, hcalls, fun d hd2 => (hb d hd2).2⟩, ?_, by rw [hj], hj, by rw [hst]⟩
    rw [hcalls, List.filter_append, quiet_filter_insert hb]
    cases c <;> simp_all [ras_call.is_parse, ras_call.is_insert]
  · obtain ⟨before, nodes, j, hn, hb, hcalls, hrc, hst⟩ := h
    rw [hcalls] at hc
    rcases List.mem_append.mp hc with hm | hm
    · exact absurd (hb c hm).2 he
    · have : c = ras_call.node_insert nodes j
          (env.orte_ras_base_node_insert st.orte_node_pool nodes j).1 := by simpa using hm
      subst this
      cases hp
  · exact absurd (h.1 c hc).2 he

/-- Instance of C8: the first per-app hostfile gives "h0", the second fails
with status 5; the call returns 5, nothing is stored, the dash-host of the
third app context is not parsed and the flag stays cleared. -/
theorem parser_error_aborts_witness :
    (orte_ras_base_allocate { sample_env with orte_util_add_hostfile_nodes := sample_picky_reader }
        ⟨false, []⟩ (sample_job_three false)).calls
      = [ras_call.add_hostfile_nodes [] "good" ORTE_SUCCESS,
         ras_call.add_hostfile_nodes [sample_node "h0" 2] "bad" 5] ∧
    (orte_ras_base_allocate { sample_env with orte_util_add_hostfile_nodes := sample_picky_reader }
        ⟨false, []⟩ (sample_job_three false)).rc = 5 ∧
    (orte_ras_base_allocate { sample_env with orte_util_add_hostfile_nodes := sample_picky_reader }
        ⟨false, []⟩ (sample_job_three false)).jdata.oversubscribe_override = false ∧
    (orte_ras_base_allocate { sample_env with orte_util_add_hostfile_nodes := sample_picky_reader }
        ⟨false, []⟩ (sample_job_three false)).st.orte_node_pool = [] :=
  ⟨by decide,
   (parser_error_aborts
      { sample_env with orte_util_add_hostfile_nodes := sample_picky_reader }
      ⟨false, []⟩ (sample_job_three false)
      (ras_call.add_hostfile_nodes [sample_node "h0" 2] "bad" 5)
      rfl (by decide) rfl (by decide)).1,
   (parser_error_aborts
      { sample_env with orte_util_add_hostfile_nodes := sample_picky_reader }
      ⟨false, []⟩ (sample_job_three false)
      (ras_call.add_hostfile_nodes [sample_node "h0" 2] "bad" 5)
      rfl (by decide) rfl (by decide)).2.2.2.1,
   (parser_error_aborts
      { sample_env with orte_util_add_hostfile_nodes := sample_picky_reader }
      ⟨false, []⟩ (sample_job_three false)
      (ras_call.add_hostfile_nodes [sample_node "h0" 2] "bad" 5)
      rfl (by decide) rfl (by decide)).2.2.2.2.2⟩

/-! ## Success and the node pool -/

/-- C9, evaluated at the failing input: from the initial state (latch clear,
empty pool) a first call whose module fails with status 7 returns 7 and leaves
the latch set and the pool empty; the next call, with a working environment,
returns success and the pool is still empty. -/
theorem success_with_empty_pool_after_failed_first_call :
    (orte_ras_base_allocate { sample_env with active_module := some sample_failing_module }
      ⟨false, []⟩ (sample_job false)).rc = 7 ∧
    (orte_ras_base_allocate { sample_env with active_module := some sample_failing_module }
      ⟨false, []⟩ (sample_job false)).st = ⟨true, []⟩ ∧
    (orte_ras_base_allocate sample_env
      (orte_ras_base_allocate { sample_env with active_module := some sample_failing_module }
        ⟨false, []⟩ (sample_job false)).st (sample_job false)).rc = ORTE_SUCCESS ∧
    (orte_ras_base_allocate sample_env
      (orte_ras_base_allocate { sample_env with active_module := some sample_failing_module }
        ⟨false, []⟩ (sample_job false)).st (sample_job false)).st.orte_node_pool = [] := by
  decide

/-! ## Sequences of calls -/

/-- C10: over any finite sequence of calls that starts with the latch clear,
whatever the jobs and whatever the collaborators do in each call, the insert
is called at most once in total, and every call but the first makes no
collaborator call at all (no module query, no parse, no insert). -/
theorem at_most_one_insert_and_one_chain (st : ras_state)
    (runs : List (ras_env × orte_job_t))
    (hl : st.allocation_read = false) :
    ((all_calls (allocate_calls st runs)).filter ras_call.is_insert).length ≤ 1 ∧
    (∀ r ∈ (allocate_calls st runs).tail, r.calls = []) ∧
    (all_calls (allocate_calls st runs).tail).filter ras_call.is_discovery = [] := by
  cases runs with
  | nil => exact ⟨by simp [allocate_calls, all_calls], by simp [allocate_calls],
      by simp [allocate_calls, all_calls]⟩
  | cons run rest =>
    obtain ⟨env, jdata⟩ := run
    have hrest := allocate_calls_of_latched (orte_ras_base_allocate env st jdata).st rest
      (allocate_sets_latch env st jdata)
    have hnil := all_calls_of_no_calls _ hrest
    refine ⟨?_, ?_, ?_⟩
    · simp only [allocate_calls, all_calls, hnil, List.append_nil]
      exact insert_count_of_ended (allocate_ended env st jdata hl)
    · simpa [allocate_calls] using hrest
    · simp only [allocate_calls, List.tail_cons, hnil]
      rfl

/-- Instance of C10: three calls from the initial state; the first finds
nothing and inserts the local node, the two others do nothing although a module
and a default hostfile are then configured. -/
theorem at_most_one_insert_and_one_chain_witness :
    (⟨false, []⟩ : ras_state).allocation_read = false ∧
    ((all_calls (allocate_calls ⟨false, []⟩
        [(sample_env, sample_job false),
         ({ sample_env with active_module := some sample_module }, sample_job false),
         ({ sample_env with orte_default_hostfile := some "hosts",
                            orte_util_add_hostfile_nodes := sample_hostfile_reader true },
          sample_job_three false)])).filter ras_call.is_insert).length ≤ 1 :=
  ⟨rfl,
   (at_most_one_insert_and_one_chain ⟨false, []⟩
        [(sample_env, sample_job false),
         ({ sample_env with active_module := some sample_module }, sample_job false),
         ({ sample_env with orte_default_hostfile := some "hosts",
                            orte_util_add_hostfile_nodes := sample_hostfile_reader true },
          sample_job_three false)] rfl).1⟩

/-! ## The per-app hostfiles -/

/-- C11, the claim as stated fails in two ways, both with no module and no default
hostfile.  First, when the hostfile of the first app context fails to parse
(status 5), the hostfile of the second app context is never parsed and
nothing is inserted.  Second, when both hostfiles parse without error but list
no node, the per-app hostfile step inserts nothing: the one insert of the call
is the one of the local fallback, with the local node. -/
theorem app_hostfiles_not_always_parsed_and_stored :
    (module_finds_nothing { sample_env with orte_util_add_hostfile_nodes := sample_picky_reader } ∧
     (default_hostfile_step
        { sample_env with orte_util_add_hostfile_nodes := sample_picky_reader }).nothing ∧
     (orte_ras_base_allocate
        { sample_env with orte_util_add_hostfile_nodes := sample_picky_reader }
        ⟨false, []⟩ (sample_job_bad_first false)).calls
       = [ras_call.add_hostfile_nodes [] "bad" 5]) ∧
    (module_finds_nothing sample_env ∧
     (default_hostfile_step sample_env).nothing ∧
     (app_hostfiles_step sample_env (sample_job_two_hostfiles false)).rc = ORTE_SUCCESS ∧
     (app_hostfiles_step sample_env (sample_job_two_hostfiles false)).nodes = [] ∧
     (orte_ras_base_allocate sample_env ⟨false, []⟩ (sample_job_two_hostfiles false)).calls
       = [ras_call.add_hostfile_nodes [] "A.hosts" ORTE_SUCCESS,
          ras_call.add_hostfile_nodes [] "B.hosts" ORTE_SUCCESS,
          ras_call.node_insert [local_node sample_env]
            (sample_job_two_hostfiles true) ORTE_SUCCESS]) :=
  ⟨⟨trivial, ⟨rfl, rfl⟩, by decide⟩, ⟨trivial, ⟨rfl, rfl⟩, by decide, by decide, by decide⟩⟩

/-- C11, amended: on a first call with no module result and no default-hostfile
nodes, when every per-app hostfile parse succeeds and the list they leave is
not empty, the per-app hostfile loop is the chain of parses of the hostfile
paths of the app contexts, in index order, each parse getting the list the one
before left, starting from the empty list; the trace is the calls of the
earlier steps, these parses, and one insert of the whole list, whose pool is
kept.  In the example (A lists n1 and n2, B lists n2 and n3, a parser that
unions by name and an insert that deduplicates by name) the pool is exactly
n1, n2, n3. -/
theorem app_hostfiles_union_is_stored :
    (∀ (env : ras_env) (st : ras_state) (jdata : orte_job_t),
      st.allocation_read = false →
      module_finds_nothing env →
      (default_hostfile_step env).nothing →
      (app_hostfiles_step env jdata).rc = ORTE_SUCCESS →
      (app_hostfiles_step env jdata).nodes ≠ [] →
      app_hostfiles_step env jdata
        = hostfile_union env (jdata.apps.filterMap fun app => app.hostfile) []
            (default_hostfile_step env).override_oversubscribed ∧
      (orte_ras_base_allocate env st jdata).calls
        = (module_query env []).2.2 ++ ((default_hostfile_step env).calls ++
            ((hostfile_union env (jdata.apps.filterMap fun app => app.hostfile) []
                (default_hostfile_step env).override_oversubscribed).calls ++
             [ras_call.node_insert
                (hostfile_union env (jdata.apps.filterMap fun app => app.hostfile) []
                  (default_hostfile_step env).override_oversubscribed).nodes jdata
                (env.orte_ras_base_node_insert st.orte_node_pool
                  (hostfile_union env (jdata.apps.filterMap fun app => app.hostfile) []
                    (default_hostfile_step env).override_oversubscribed).nodes jdata).1])) ∧
      (orte_ras_base_allocate env st jdata).calls.filter ras_call.is_insert
        = [ras_call.node_insert (app_hostfiles_step env jdata).nodes jdata
            (env.orte_ras_base_node_insert st.orte_node_pool
              (app_hostfiles_step env jdata).nodes jdata).1] ∧
      (orte_ras_base_allocate env st jdata).st.orte_node_pool
        = (env.orte_ras_base_node_insert st.orte_node_pool
            (app_hostfiles_step env jdata).nodes jdata).2) ∧
    (orte_ras_base_allocate (sample_union_env false) ⟨false, []⟩
        (sample_job_two_hostfiles true)).st.orte_node_pool
      = [sample_node "n1" 1, sample_node "n2" 1, sample_node "n3" 1] := by
  refine ⟨?_, by decide⟩
  intro env st jdata hl hm hd hs hn
  have hu := app_hostfiles_step_eq_union env jdata hd hs
  have h1 := module_query_no_insert env []
  have h2 : (default_hostfile_step env).calls.filter ras_call.is_insert = [] :=
    default_hostfile_parse_no_insert env [] env.override_uninit
  have h3 : (app_hostfiles_step env jdata).calls.filter ras_call.is_insert = [] :=
    hostfile_loop_no_insert env jdata.apps _ _
  rw [allocate_of_app_hostfiles_nodes env st jdata hl hm hd hs hn]
  refine ⟨hu, ?_, ?_, rfl⟩
  · rw [← hu]
    simp [store_with_override]
  · simp [store_with_override, h1, h2, h3, ras_call.is_insert]

/-- Instance of C11 amended: the example job, with its two hostfiles; the
trace holds exactly one insert, of n1, n2, n3. -/
theorem app_hostfiles_union_is_stored_witness :
    (orte_ras_base_allocate (sample_union_env false) ⟨false, []⟩
        (sample_job_two_hostfiles true)).calls.filter ras_call.is_insert
      = [ras_call.node_insert
          [sample_node "n1" 1, sample_node "n2" 1, sample_node "n3" 1]
          (sample_job_two_hostfiles true) ORTE_SUCCESS] :=
  (app_hostfiles_union_is_stored.1 (sample_union_env false) ⟨false, []⟩
    (sample_job_two_hostfiles true) rfl trivial ⟨rfl, rfl⟩ (by decide) (by decide)).2.2.1

/-- C12: on a first call with no module result and no default-hostfile nodes,
if the per-app hostfile loop ends without error with a non-empty list, then no
dash-host parser call is made, the one insert gets exactly the list the
hostfile parses built (starting from the empty list), and the override flag of
the job is the value the hostfile parses left in the override variable. -/
theorem app_hostfiles_win_over_dash_host (env : ras_env) (st : ras_state)
    (jdata : orte_job_t)
    (hl : st.allocation_read = false)
    (hm : module_finds_nothing env)
    (hd : (default_hostfile_step env).nothing)
    (hs : (app_hostfiles_step env jdata).rc = ORTE_SUCCESS)
    (hn : (app_hostfiles_step env jdata).nodes ≠ []) :
    (orte_ras_base_allocate env st jdata).calls.filter ras_call.is_dash_host = [] ∧
    (orte_ras_base_allocate env st jdata).calls.filter ras_call.is_insert
      = [ras_call.node_insert (app_hostfiles_step env jdata).nodes jdata
          (env.orte_ras_base_node_insert st.orte_node_pool
            (app_hostfiles_step env jdata).nodes jdata).1] ∧
    (app_hostfiles_step env jdata).nodes
      = (hostfile_union env (jdata.apps.filterMap fun app => app.hostfile) []
          (default_hostfile_step env).override_oversubscribed).nodes ∧
    (orte_ras_base_allocate env st jdata).jdata.oversubscribe_override
      = (app_hostfiles_step env jdata).override_oversubscribed := by
  have hu := app_hostfiles_step_eq_union env jdata hd hs
  have h1 := module_query_no_insert env []
  have h2 : (default_hostfile_step env).calls.filter ras_call.is_insert = [] :=
    default_hostfile_parse_no_insert env [] env.override_uninit
  have h3 : (app_hostfiles_step env jdata).calls.filter ras_call.is_insert = [] :=
    hostfile_loop_no_insert env jdata.apps _ _
  have k1 := module_query_no_dash_host env []
  have k2 : (default_hostfile_step env).calls.filter ras_call.is_dash_host = [] :=
    default_hostfile_parse_no_dash_host env [] env.override_uninit
  have k3 : (app_hostfiles_step env jdata).calls.filter ras_call.is_dash_host = [] :=
    hostfile_loop_no_dash_host env jdata.apps _ _
  rw [allocate_of_app_hostfiles_nodes env st jdata hl hm hd hs hn]
  refine ⟨?_, ?_, by rw [← hu], rfl⟩
  · simp [store_with_override, k1, k2, k3, ras_call.is_dash_host]
  · simp [store_with_override, h1, h2, h3, ras_call.is_insert]

/-- Instance of C12: app context A has a hostfile listing nodeA with four
slots, B has no hostfile and the dash-host nodeB; only nodeA reaches the pool,
no dash-host is parsed, and the flag the caller had cleared becomes the
hostfile hint, true. -/
theorem app_hostfiles_win_over_dash_host_witness :
    (orte_ras_base_allocate (sample_union_env true) ⟨false, []⟩
        (sample_job_hostfile_and_dash_host false)).calls.filter ras_call.is_dash_host = [] ∧
    (orte_ras_base_allocate (sample_union_env true) ⟨false, []⟩
        (sample_job_hostfile_and_dash_host false)).calls.filter ras_call.is_insert
      = [ras_call.node_insert [sample_node "nodeA" 4]
          (sample_job_hostfile_and_dash_host false) ORTE_SUCCESS] ∧
    (orte_ras_base_allocate (sample_union_env true) ⟨false, []⟩
        (sample_job_hostfile_and_dash_host false)).jdata.oversubscribe_override = true :=
  ⟨(app_hostfiles_win_over_dash_host (sample_union_env true) ⟨false, []⟩
      (sample_job_hostfile_and_dash_host false) rfl trivial ⟨rfl, rfl⟩
      (by decide) (by decide)).1,
   (app_hostfiles_win_over_dash_host (sample_union_env true) ⟨false, []⟩
      (sample_job_hostfile_and_dash_host false) rfl trivial ⟨rfl, rfl⟩
      (by decide) (by decide)).2.1,
   (app_hostfiles_win_over_dash_host (sample_union_env true) ⟨false, []⟩
      (sample_job_hostfile_and_dash_host false) rfl trivial ⟨rfl, rfl⟩
      (by decide) (by decide)).2.2.2⟩

/-- C13: when the per-app hostfile step wins (no module result, no nodes from
the default hostfile, every per-app parse succeeded and the list is not
empty), there is a last app context with a hostfile path, and the override flag
of the job after the call is the hint returned by the parse of that hostfile,
a parse that got the list and the override variable left by the app contexts
before it; what earlier parses (the default hostfile's included) had stored in
the variable is overwritten. -/
theorem last_app_hostfile_hint_wins (env : ras_env) (st : ras_state)
    (jdata : orte_job_t)
    (hl : st.allocation_read = false)
    (hm : module_finds_nothing env)
    (hd : (default_hostfile_step env).nothing)
    (hs : (app_hostfiles_step env jdata).rc = ORTE_SUCCESS)
    (hn : (app_hostfiles_step env jdata).nodes ≠ []) :
    ∃ front app back file,
      jdata.apps = front ++ app :: back ∧ app.hostfile = some file ∧
      (∀ p ∈ back, p.hostfile = none) ∧
      (hostfile_loop env front [] (default_hostfile_step env).override_oversubscribed).rc
        = ORTE_SUCCESS ∧
      (orte_ras_base_allocate env st jdata).jdata.oversubscribe_override
        = (env.orte_util_add_hostfile_nodes
            (hostfile_loop env front []
              (default_hostfile_step env).override_oversubscribed).nodes
            (hostfile_loop env front []
              (default_hostfile_step env).override_oversubscribed).override_oversubscribed
            file).2.2 := by
  rw [allocate_of_app_hostfiles_nodes env st jdata hl hm hd hs hn]
  have hstep : app_hostfiles_step env jdata
      = hostfile_loop env jdata.apps [] (default_hostfile_step env).override_oversubscribed := by
    unfold app_hostfiles_step
    rw [hd.2]
  rw [hstep] at hs hn
  rcases last_passing (fun app : orte_app_context_t => app.hostfile.isSome) jdata.apps
    with hnone | ⟨front, app, back, happs, hsome, hback⟩
  · exfalso
    apply hn
    rw [hostfile_loop_of_no_hostfile env jdata.apps _ _ (fun p hp => by
      have := hnone p hp
      simpa using this)]
  · obtain ⟨file, hfile⟩ := Option.isSome_iff_exists.mp hsome
    have hb : ∀ p ∈ back, p.hostfile = none := fun p hp => by
      have := hback p hp
      simpa using this
    rw [happs] at hs
    obtain ⟨h1, _, h3⟩ := hostfile_loop_last env front back app file [] _ hfile hb hs
    refine ⟨front, app, back, file, happs, hfile, hb, h1, ?_⟩
    simp only [after_jdata, store_with_override, hstep]
    rw [happs]
    exact h3

/-- Instance of C13: the default hostfile is configured but lists no node
(hint false), A's hostfile has the hint false, B's the hint true; the flag the
caller had cleared ends up true, the hint of B, the last one. -/
theorem last_app_hostfile_hint_wins_witness :
    (orte_ras_base_allocate
        sample_hint_env
        ⟨false, []⟩ (sample_job_two_hostfiles false)).jdata.oversubscribe_override = true ∧
    ∃ front app back file,
      (sample_job_two_hostfiles false).apps = front ++ app :: back ∧
      app.hostfile = some file ∧
      (∀ p ∈ back, p.hostfile = none) ∧
      (hostfile_loop
        sample_hint_env
        front []
        (default_hostfile_step
          sample_hint_env).override_oversubscribed).rc = ORTE_SUCCESS ∧
      (orte_ras_base_allocate
        sample_hint_env
        ⟨false, []⟩ (sample_job_two_hostfiles false)).jdata.oversubscribe_override
        = (sample_hint_by_file
            (hostfile_loop
              sample_hint_env
              front []
              (default_hostfile_step
                sample_hint_env).override_oversubscribed).nodes
            (hostfile_loop
              sample_hint_env
              front []
              (default_hostfile_step
                sample_hint_env).override_oversubscribed).override_oversubscribed
            file).2.2 :=
  ⟨by decide,
   last_app_hostfile_hint_wins
    sample_hint_env
    ⟨false, []⟩ (sample_job_two_hostfiles false) rfl trivial ⟨rfl, by decide⟩
    (by decide) (by decide)⟩

/-! ## The dash-host specifications -/

/-- C14, the claim as stated fails: with no module, no default hostfile and no
per-app hostfile (steps 1-3 yield no node, without error), two app contexts
that both carry a dash-host, and a parser that fails with status 6 on the
first: the dash-host parser is called for the first app context only, the call
returns 6 and the second dash-host is never parsed. -/
theorem dash_host_not_parsed_after_error :
    (sample_job_two_dash_hosts false).apps.filter orte_app_context_t.has_dash_host
      = (sample_job_two_dash_hosts false).apps ∧
    module_finds_nothing
      { sample_env with orte_util_add_dash_host_nodes := sample_picky_dash_host } ∧
    (default_hostfile_step
      { sample_env with orte_util_add_dash_host_nodes := sample_picky_dash_host }).nothing ∧
    (app_hostfiles_step
      { sample_env with orte_util_add_dash_host_nodes := sample_picky_dash_host }
      (sample_job_two_dash_hosts false)).nothing ∧
    (orte_ras_base_allocate
      { sample_env with orte_util_add_dash_host_nodes := sample_picky_dash_host }
      ⟨false, []⟩ (sample_job_two_dash_hosts false)).calls
      = [ras_call.add_dash_host_nodes [] ["d0"] 6] ∧
    (orte_ras_base_allocate
      { sample_env with orte_util_add_dash_host_nodes := sample_picky_dash_host }
      ⟨false, []⟩ (sample_job_two_dash_hosts false)).rc = 6 :=
  ⟨by decide, trivial, ⟨rfl, rfl⟩, ⟨rfl, rfl⟩, by decide, by decide⟩

/-- C14, amended: on a first call where steps 1-3 yield no node without error
and no dash-host parse returns an error, the dash-host loop is the chain of
parses of the dash-host specifications of the app contexts that carry one
(`0 < num_map`), in index order, each parse getting the combined list the one
before left, starting from the empty list, and these are all the dash-host
parser calls of the trace; if the combined list is not empty it is inserted
once, and the override flag of the job becomes the hint returned by the parse
for the last app context that carries a dash-host. -/
theorem dash_host_union_is_stored (env : ras_env) (st : ras_state) (jdata : orte_job_t)
    (hl : st.allocation_read = false)
    (hm : module_finds_nothing env)
    (hd : (default_hostfile_step env).nothing)
    (ha : (app_hostfiles_step env jdata).nothing)
    (hs : (dash_host_step env jdata).rc = ORTE_SUCCESS) :
    dash_host_step env jdata
      = dash_host_union env
          ((jdata.apps.filter orte_app_context_t.has_dash_host).map fun app => app.dash_host)
          [] (app_hostfiles_step env jdata).override_oversubscribed ∧
    (orte_ras_base_allocate env st jdata).calls.filter ras_call.is_dash_host
      = (dash_host_union env
          ((jdata.apps.filter orte_app_context_t.has_dash_host).map fun app => app.dash_host)
          [] (app_hostfiles_step env jdata).override_oversubscribed).calls ∧
    ((dash_host_step env jdata).nodes ≠ [] →
      (orte_ras_base_allocate env st jdata).calls.filter ras_call.is_insert
        = [ras_call.node_insert (dash_host_step env jdata).nodes jdata
            (env.orte_ras_base_node_insert st.orte_node_pool
              (dash_host_step env jdata).nodes jdata).1] ∧
      ∃ front app back,
        jdata.apps = front ++ app :: back ∧ app.has_dash_host = true ∧
        (∀ p ∈ back, p.has_dash_host = false) ∧
        (orte_ras_base_allocate env st jdata).jdata.oversubscribe_override
          = (env.orte_util_add_dash_host_nodes
              (dash_host_loop env front []
                (app_hostfiles_step env jdata).override_oversubscribed).nodes
              (dash_host_loop env front []
                (app_hostfiles_step env jdata).override_oversubscribed).override_oversubscribed
              app.dash_host).2.2) := by
  have hu := dash_host_step_eq_union env jdata ha hs
  refine ⟨hu, ?_, ?_⟩
  · rw [dash_host_calls_of_reached env st jdata hl hm hd ha hs, hu]
  · intro hn
    have h1 := module_query_no_insert env []
    have h2 : (default_hostfile_step env).calls.filter ras_call.is_insert = [] :=
      default_hostfile_parse_no_insert env [] env.override_uninit
    have h3 : (app_hostfiles_step env jdata).calls.filter ras_call.is_insert = [] :=
      hostfile_loop_no_insert env jdata.apps _ _
    have h4 : (dash_host_step env jdata).calls.filter ras_call.is_insert = [] :=
      dash_host_loop_no_insert env jdata.apps _ _
    rw [allocate_of_dash_host_nodes env st jdata hl hm hd ha hs hn]
    refine ⟨by simp [store_with_override, h1, h2, h3, h4, ras_call.is_insert], ?_⟩
    have hstep : dash_host_step env jdata
        = dash_host_loop env jdata.apps []
            (app_hostfiles_step env jdata).override_oversubscribed := by
      unfold dash_host_step
      rw [ha.2]
    rw [hstep] at hs hn
    rcases last_passing orte_app_context_t.has_dash_host jdata.apps
      with hnone | ⟨front, app, back, happs, hsome, hback⟩
    · exfalso
      apply hn
      rw [dash_host_loop_of_no_dash_host env jdata.apps _ _ hnone]
    · rw [happs] at hs
      obtain ⟨_, _, k3⟩ := dash_host_loop_last env front back app [] _ hsome hback hs
      refine ⟨front, app, back, happs, hsome, hback, ?_⟩
      simp only [after_jdata, store_with_override, hstep]
      rw [happs]
      exact k3

/-- Instance of C14 amended: two app contexts with the dash-hosts d0 and d1, no
hostfile anywhere; both are parsed in order into one list, which is inserted,
and the flag the caller had set becomes the parser's hint, false. -/
theorem dash_host_union_is_stored_witness :
    (orte_ras_base_allocate (sample_union_env false) ⟨false, []⟩
        (sample_job_two_dash_hosts true)).calls.filter ras_call.is_dash_host
      = [ras_call.add_dash_host_nodes [] ["d0"] ORTE_SUCCESS,
         ras_call.add_dash_host_nodes [sample_node "d0" 2] ["d1"] ORTE_SUCCESS] ∧
    (orte_ras_base_allocate (sample_union_env false) ⟨false, []⟩
        (sample_job_two_dash_hosts true)).calls.filter ras_call.is_insert
      = [ras_call.node_insert [sample_node "d0" 2, sample_node "d1" 2]
          (sample_job_two_dash_hosts true) ORTE_SUCCESS] ∧
    (orte_ras_base_allocate (sample_union_env false) ⟨false, []⟩
        (sample_job_two_dash_hosts true)).jdata.oversubscribe_override = false :=
  ⟨(dash_host_union_is_stored (sample_union_env false) ⟨false, []⟩
      (sample_job_two_dash_hosts true) rfl trivial ⟨rfl, rfl⟩ ⟨rfl, rfl⟩ (by decide)).2.1,
   ((dash_host_union_is_stored (sample_union_env false) ⟨false, []⟩
      (sample_job_two_dash_hosts true) rfl trivial ⟨rfl, rfl⟩ ⟨rfl, rfl⟩ (by decide)).2.2
      (by decide)).1,
   by decide⟩

/-! ## The insert -/

/-- C15: on a first call, whichever source supplied the list, if an insert
call of the trace returned an error, then the call returns exactly that
status, that insert is the last collaborator call made (no further source is
tried) and it is the only insert of the trace. -/
theorem insert_error_is_returned (env : ras_env) (st : ras_state) (jdata : orte_job_t)
    (c : ras_call)
    (hl : st.allocation_read = false)
    (hc : c ∈ (orte_ras_base_allocate env st jdata).calls)
    (hi : c.is_insert = true)
    (he : c.status ≠ ORTE_SUCCESS) :
    (orte_ras_base_allocate env st jdata).rc = c.status ∧
    (orte_ras_base_allocate env st jdata).rc ≠ ORTE_SUCCESS ∧
    (∃ before, (orte_ras_base_allocate env st jdata).calls = before ++ [c] ∧
      ∀ d ∈ before, d.is_insert = false) ∧
    (orte_ras_base_allocate env st jdata).calls.filter ras_call.is_insert = [c] := by
  rcases allocate_ended env st jdata hl with h | h | h
  · obtain ⟨before, c2, hcalls, hb, hd, _, _, _, _⟩ := h
    rw [hcalls] at hc
    rcases List.mem_append.mp hc with hm | hm
    · rw [not_is_insert_of_quiet hb c hm] at hi
      cases hi
    · have hcc : c = c2 := by simpa using hm
      rw [hcc, not_is_insert_of_is_discovery hd] at hi
      cases hi
  · obtain ⟨before, nodes, j, _, hb, hcalls, hrc, _⟩ := h
    have hcc : c = ras_call.node_insert nodes j
        (env.orte_ras_base_node_insert st.orte_node_pool nodes j).1 := by
      rw [hcalls] at hc
      rcases List.mem_append.mp hc with hm | hm
      · rw [not_is_insert_of_quiet hb c hm] at hi
        cases hi
      · simpa using hm
    have hst : c.status = (env.orte_ras_base_node_insert st.orte_node_pool nodes j).1 := by
      rw [hcc]
      rfl
    refine ⟨by rw [hrc, hst], by rw [hrc, ← hst]; exact he,
      ⟨before, by rw [hcalls, hcc], not_is_insert_of_quiet hb⟩, ?_⟩
    rw [hcalls, List.filter_append, quiet_filter_insert hb, hcc]
    rfl
  · rw [not_is_insert_of_quiet h.1 c hc] at hi
    cases hi

/-- Instance of C15: the module finds "m0" and the insert fails with status
9; the call returns 9 after the one insert. -/
theorem insert_error_is_returned_witness :
    (orte_ras_base_allocate
        { sample_env with active_module := some sample_module,
                          orte_ras_base_node_insert := fun pool _ _ => (9, pool) }
        ⟨false, []⟩ (sample_job false)).rc = 9 ∧
    (orte_ras_base_allocate
        { sample_env with active_module := some sample_module,
                          orte_ras_base_node_insert := fun pool _ _ => (9, pool) }
        ⟨false, []⟩ (sample_job false)).calls.filter ras_call.is_insert
      = [ras_call.node_insert [sample_node "m0" 4] (sample_job false) 9] :=
  ⟨(insert_error_is_returned
      { sample_env with active_module := some sample_module,
                        orte_ras_base_node_insert := fun pool _ _ => (9, pool) }
      ⟨false, []⟩ (sample_job false)
      (ras_call.node_insert [sample_node "m0" 4] (sample_job false) 9)
      rfl (by decide) rfl (by decide)).1,
   (insert_error_is_returned
      { sample_env with active_module := some sample_module,
                        orte_ras_base_node_insert := fun pool _ _ => (9, pool) }
      ⟨false, []⟩ (sample_job false)
      (ras_call.node_insert [sample_node "m0" 4] (sample_job false) 9)
      rfl (by decide) rfl (by decide)).2.2.2⟩

/-! ## A module that finds nothing -/

/-- C16: a configured module whose allocate succeeds with an empty list is not
a failure: for every job and every behaviour of the parsers, the insert and the
allocator, the first call returns the same status, makes the same insert calls
(same list), leaves the same job (same flag) and the same state, and makes the
same parser calls in the same order as the same call with no module configured;
the only difference in the trace is the module query in front. -/
theorem empty_module_result_is_no_module (env : ras_env) (st : ras_state)
    (jdata : orte_job_t) (allocate : List orte_node_t → Int × List orte_node_t)
    (hl : st.allocation_read = false)
    (hm : env.active_module = some allocate)
    (hs : (allocate []).1 = ORTE_SUCCESS)
    (he : (allocate []).2 = []) :
    (orte_ras_base_allocate env st jdata).rc
      = (orte_ras_base_allocate { env with active_module := none } st jdata).rc ∧
    (orte_ras_base_allocate env st jdata).calls.filter ras_call.is_insert
      = (orte_ras_base_allocate { env with active_module := none } st jdata).calls.filter
          ras_call.is_insert ∧
    (orte_ras_base_allocate env st jdata).jdata.oversubscribe_override
      = (orte_ras_base_allocate { env with active_module := none } st
          jdata).jdata.oversubscribe_override ∧
    (orte_ras_base_allocate env st jdata).calls.filter ras_call.is_parse
      = (orte_ras_base_allocate { env with active_module := none } st jdata).calls.filter
          ras_call.is_parse ∧
    (orte_ras_base_allocate env st jdata).st
      = (orte_ras_base_allocate { env with active_module := none } st jdata).st ∧
    (orte_ras_base_allocate env st jdata).calls
      = ras_call.module_allocate ORTE_SUCCESS
        :: (orte_ras_base_allocate { env with active_module := none } st jdata).calls := by
  have h1 : module_finds_nothing env := by
    unfold module_finds_nothing
    rw [hm]
    exact ⟨hs, he⟩
  have h0 : module_finds_nothing { env with active_module := none } := trivial
  have hq : (module_query env []).2.2 = [ras_call.module_allocate ORTE_SUCCESS] := by
    simp [module_query, hm, hs]
  have hq0 : (module_query { env with active_module := none } []).2.2 = [] := rfl
  rw [allocate_of_unlatched env st jdata hl, allocate_of_unlatched _ st jdata hl,
    from_module_of_nothing env _ jdata h1, from_module_of_nothing _ _ jdata h0,
    from_default_hostfile_without_module env none, hq, hq0]
  simp [ras_call.is_insert, ras_call.is_parse]

/-- Instance of C16: a module that finds nothing in front of a default
hostfile that gives "h0": status, pool and flag are those of the call without
module. -/
theorem empty_module_result_is_no_module_witness :
    (sample_empty_module []).1 = ORTE_SUCCESS ∧ (sample_empty_module []).2 = [] ∧
    (orte_ras_base_allocate
        { sample_env with active_module := some sample_empty_module,
                          orte_default_hostfile := some "hosts",
                          orte_util_add_hostfile_nodes := sample_hostfile_reader true }
        ⟨false, []⟩ (sample_job false)).st
      = (orte_ras_base_allocate
        { sample_env with active_module := none,
                          orte_default_hostfile := some "hosts",
                          orte_util_add_hostfile_nodes := sample_hostfile_reader true }
        ⟨false, []⟩ (sample_job false)).st :=
  ⟨rfl, rfl,
   (empty_module_result_is_no_module
      { sample_env with active_module := some sample_empty_module,
                        orte_default_hostfile := some "hosts",
                        orte_util_add_hostfile_nodes := sample_hostfile_reader true }
      ⟨false, []⟩ (sample_job false) sample_empty_module rfl rfl rfl rfl).2.2.2.2.1⟩

/-! ## One insert, never of an empty list -/

/-- C17: on a first call, if the call returns success then the insert was
called exactly once, with a non-empty list (and that insert returned success);
and on any first call the insert is called at most once and never with an
empty list. -/
theorem insert_once_and_never_empty (env : ras_env) (st : ras_state) (jdata : orte_job_t)
    (hl : st.allocation_read = false) :
    ((orte_ras_base_allocate env st jdata).rc = ORTE_SUCCESS →
      ∃ nodes j, nodes ≠ [] ∧
        (orte_ras_base_allocate env st jdata).calls.filter ras_call.is_insert
          = [ras_call.node_insert nodes j ORTE_SUCCESS]) ∧
    ((orte_ras_base_allocate env st jdata).calls.filter ras_call.is_insert).length ≤ 1 ∧
    (∀ nodes j rc, ras_call.node_insert nodes j rc ∈ (orte_ras_base_allocate env st jdata).calls
      → nodes ≠ []) := by
  have hend := allocate_ended env st jdata hl
  refine ⟨?_, insert_count_of_ended hend, ?_⟩
  · intro hs
    rcases hend with h | h | h
    · obtain ⟨_, c, _, _, _, he, hrc, _, _⟩ := h
      rw [hrc] at hs
      exact absurd hs he
    · obtain ⟨before, nodes, j, hn, hb, hcalls, hrc, _⟩ := h
      refine ⟨nodes, j, hn, ?_⟩
      rw [hcalls, List.filter_append, quiet_filter_insert hb, ← hrc, hs]
      rfl
    · rw [h.2.1] at hs
      exact absurd hs (by decide)
  · intro nodes j rc hmem
    rcases hend with h | h | h
    · obtain ⟨before, c, hcalls, hb, hd, _, _, _, _⟩ := h
      rw [hcalls] at hmem
      rcases List.mem_append.mp hmem with hm | hm
      · have := not_is_insert_of_quiet hb _ hm
        cases this
      · have hcc : ras_call.node_insert nodes j rc = c := by simpa using hm
        rw [← hcc] at hd
        cases hd
    · obtain ⟨before, nodes2, j2, hn, hb, hcalls, _, _⟩ := h
      rw [hcalls] at hmem
      rcases List.mem_append.mp hmem with hm | hm
      · have := not_is_insert_of_quiet hb _ hm
        cases this
      · have hcc : ras_call.node_insert nodes j rc = ras_call.node_insert nodes2 j2
            (env.orte_ras_base_node_insert st.orte_node_pool nodes2 j2).1 := by simpa using hm
        injection hcc with h1 _ _
        rw [h1]
        exact hn
    · have := not_is_insert_of_quiet h.1 _ hmem
      cases this

/-- Instance of C17: nothing is configured; the successful first call made one
insert, of the local node. -/
theorem insert_once_and_never_empty_witness :
    (⟨false, []⟩ : ras_state).allocation_read = false ∧
    (orte_ras_base_allocate sample_env ⟨false, []⟩ (sample_job false)).rc = ORTE_SUCCESS ∧
    ((orte_ras_base_allocate sample_env ⟨false, []⟩ (sample_job false)).calls.filter
      ras_call.is_insert).length ≤ 1 :=
  ⟨rfl, by decide,
   (insert_once_and_never_empty sample_env ⟨false, []⟩ (sample_job false) rfl).2.1⟩

/-! ## The flag when the insert fails -/

/-- C18: the call is not atomic with respect to the flag.  On a first call in
which the module step yields nothing: when the default hostfile, the per-app
hostfiles or the dash-hosts supply the non-empty list and the insert of that
list returns an error, the call returns that error and the override flag of
the job is nevertheless the hint the parses left; when nothing is found, the
local node can be constructed and its insert returns an error, the call
returns that error and the flag is nevertheless true. -/
theorem flag_written_though_insert_fails (env : ras_env) (st : ras_state)
    (jdata : orte_job_t)
    (hl : st.allocation_read = false)
    (hm : module_finds_nothing env) :
    ((default_hostfile_step env).rc = ORTE_SUCCESS →
      (default_hostfile_step env).nodes ≠ [] →
      (env.orte_ras_base_node_insert st.orte_node_pool
        (default_hostfile_step env).nodes jdata).1 ≠ ORTE_SUCCESS →
      (orte_ras_base_allocate env st jdata).rc
        = (env.orte_ras_base_node_insert st.orte_node_pool
            (default_hostfile_step env).nodes jdata).1 ∧
      (orte_ras_base_allocate env st jdata).jdata.oversubscribe_override
        = (default_hostfile_step env).override_oversubscribed) ∧
    ((default_hostfile_step env).nothing →
      (app_hostfiles_step env jdata).rc = ORTE_SUCCESS →
      (app_hostfiles_step env jdata).nodes ≠ [] →
      (env.orte_ras_base_node_insert st.orte_node_pool
        (app_hostfiles_step env jdata).nodes jdata).1 ≠ ORTE_SUCCESS →
      (orte_ras_base_allocate env st jdata).rc
        = (env.orte_ras_base_node_insert st.orte_node_pool
            (app_hostfiles_step env jdata).nodes jdata).1 ∧
      (orte_ras_base_allocate env st jdata).jdata.oversubscribe_override
        = (app_hostfiles_step env jdata).override_oversubscribed) ∧
    ((default_hostfile_step env).nothing →
      (app_hostfiles_step env jdata).nothing →
      (dash_host_step env jdata).rc = ORTE_SUCCESS →
      (dash_host_step env jdata).nodes ≠ [] →
      (env.orte_ras_base_node_insert st.orte_node_pool
        (dash_host_step env jdata).nodes jdata).1 ≠ ORTE_SUCCESS →
      (orte_ras_base_allocate env st jdata).rc
        = (env.orte_ras_base_node_insert st.orte_node_pool
            (dash_host_step env jdata).nodes jdata).1 ∧
      (orte_ras_base_allocate env st jdata).jdata.oversubscribe_override
        = (dash_host_step env jdata).override_oversubscribed) ∧
    ((default_hostfile_step env).nothing →
      (app_hostfiles_step env jdata).nothing →
      (dash_host_step env jdata).nothing →
      env.obj_new_node = true →
      (env.orte_ras_base_node_insert st.orte_node_pool [local_node env]
        { jdata with oversubscribe_override := true }).1 ≠ ORTE_SUCCESS →
      (orte_ras_base_allocate env st jdata).rc
        = (env.orte_ras_base_node_insert st.orte_node_pool [local_node env]
            { jdata with oversubscribe_override := true }).1 ∧
      (orte_ras_base_allocate env st jdata).jdata.oversubscribe_override = true) := by
  refine ⟨?_, ?_, ?_, ?_⟩
  · intro hs hn _
    rw [allocate_of_default_hostfile_nodes env st jdata hl hm hs hn]
    exact ⟨rfl, rfl⟩
  · intro hd hs hn _
    rw [allocate_of_app_hostfiles_nodes env st jdata hl hm hd hs hn]
    exact ⟨rfl, rfl⟩
  · intro hd ha hs hn _
    rw [allocate_of_dash_host_nodes env st jdata hl hm hd ha hs hn]
    exact ⟨rfl, rfl⟩
  · intro hd ha hh hobj _
    rw [allocate_of_nothing_found env st jdata hl hm hd ha hh,
      local_fallback_of_node env _ jdata [] hobj]
    exact ⟨rfl, rfl⟩

/-- Instance of C18: with an insert that always fails with status 9 and a job
whose flag the caller had cleared, the default hostfile "hosts" (hint true)
gives a call that returns 9 with the flag set; so does the local fallback when
nothing is configured. -/
theorem flag_written_though_insert_fails_witness :
    ((orte_ras_base_allocate
        { sample_env with orte_default_hostfile := some "hosts",
                          orte_util_add_hostfile_nodes := sample_hostfile_reader true,
                          orte_ras_base_node_insert := fun pool _ _ => (9, pool) }
        ⟨false, []⟩ (sample_job false)).rc = 9 ∧
     (orte_ras_base_allocate
        { sample_env with orte_default_hostfile := some "hosts",
                          orte_util_add_hostfile_nodes := sample_hostfile_reader true,
                          orte_ras_base_node_insert := fun pool _ _ => (9, pool) }
        ⟨false, []⟩ (sample_job false)).jdata.oversubscribe_override = true) ∧
    ((orte_ras_base_allocate
        { sample_env with orte_ras_base_node_insert := fun pool _ _ => (9, pool) }
        ⟨false, []⟩ (sample_job false)).rc = 9 ∧
     (orte_ras_base_allocate
        { sample_env with orte_ras_base_node_insert := fun pool _ _ => (9, pool) }
        ⟨false, []⟩ (sample_job false)).jdata.oversubscribe_override = true) :=
  ⟨(flag_written_though_insert_fails
      { sample_env with orte_default_hostfile := some "hosts",
                        orte_util_add_hostfile_nodes := sample_hostfile_reader true,
                        orte_ras_base_node_insert := fun pool _ _ => (9, pool) }
      ⟨false, []⟩ (sample_job false) rfl trivial).1 rfl (by decide) (by decide),
   (flag_written_though_insert_fails
      { sample_env with orte_ras_base_node_insert := fun pool _ _ => (9, pool) }
      ⟨false, []⟩ (sample_job false) rfl trivial).2.2.2
      ⟨rfl, rfl⟩ ⟨rfl, rfl⟩ ⟨rfl, rfl⟩ rfl (by decide)⟩

end Ras
